import Mathlib

/-!
# Verification of `prepare_data.py` (RecLMIS data-preparation script)

Shallow embedding of the data-preparation script.  The script performs
sequential filesystem and network side effects; we model a run of each
function as a list of observable events (`Event`) together with an optional
uncaught Python exception (`Run.raised`).  The filesystem is a finite map
from path strings to file contents plus a set of existing directories
(`FS`); applying the event list to the initial filesystem yields the final
filesystem state.

External library calls (`gdown.download`, `requests`, `urllib.request.
urlretrieve`, `zipfile`) are nondeterministic I/O; their outcomes are
supplied by oracle structures (`GdownOutcome`, `StageCOutcome`, …) that the
theorems quantify over.  File contents are abstracted to `FileData`: we
record whether the bytes form a valid zip archive (the `zipfile.is_zipfile`
check), the entry names the archive contains (what `ZipFile.extractall`
would produce), and a byte size.  In this abstraction an archive that
passes `is_zipfile` extracts successfully.

All path strings in the script are produced by f-strings or by
`os.path.join` applied to a directory string that ends in `/`, so path
joining is string concatenation here.
-/

/-- Abstracted contents of a file: whether the bytes are a valid zip
archive, the entry names it would extract to, and the byte size. -/
structure FileData where
  isZip : Bool
  zipEntries : List String
  size : Nat
deriving DecidableEq, Repr

/-- Placeholder contents of a file produced by `ZipFile.extractall`; a
deterministic function of nothing, since the claims never inspect the
bytes of extracted entries. -/
def extractedFile : FileData := ⟨false, [], 1⟩

/-- Observable side effects of the script, in program order.  `msg` is a
line of console output (only the messages some claim mentions are
recorded); `netRequest` is any outbound HTTP / cloud-drive request,
labelled by its URL. -/
inductive Event where
  | makedirs (p : String)
  | rmtree (p : String)
  | write (p : String) (d : FileData)
  | remove (p : String)
  | extractZip (zip : String) (dest : String)
  | netRequest (url : String)
  | msg (s : String)
deriving DecidableEq, Repr

/-- Filesystem state: the set of existing directories and the files with
their contents.  Directory paths end in `/`. -/
structure FS where
  dirs : List String
  files : List (String × FileData)
deriving DecidableEq, Repr

/-- `strPrefix p s` : the string `p` is a prefix of `s`. -/
def strPrefix (p s : String) : Bool := p.data.isPrefixOf s.data

def FS.dirExists (fs : FS) (p : String) : Bool :=
  fs.dirs.any (fun d => d = p)

def FS.fileExists (fs : FS) (p : String) : Bool :=
  fs.files.any (fun f => f.1 = p)

def FS.lookupFile (fs : FS) (p : String) : Option FileData :=
  (fs.files.find? (fun f => f.1 = p)).map Prod.snd

/-- Walk the characters of a path, emitting every prefix that ends in `/`.
`pre` is the reversed list of characters already consumed. -/
def dirAncestorsAux : List Char → List Char → List String
  | _, [] => []
  | pre, c :: rest =>
      if c = '/' then
        String.mk ((c :: pre).reverse) :: dirAncestorsAux (c :: pre) rest
      else
        dirAncestorsAux (c :: pre) rest

/-- All ancestors of a `/`-terminated directory path, each `/`-terminated:
`dirAncestors "./a/b/" = ["./", "./a/", "./a/b/"]`.  These are the
directories `os.makedirs(p, exist_ok=True)` guarantees to exist. -/
def dirAncestors (p : String) : List String := dirAncestorsAux [] p.data

/-- Effect of `os.makedirs(p, exist_ok=True)`: the directory and all its
ancestors exist afterwards.  (Duplicates in `dirs` are harmless: existence
is membership.) -/
def FS.makedirs (fs : FS) (p : String) : FS :=
  { fs with dirs := fs.dirs ++ dirAncestors p }

/-- Effect of `shutil.rmtree(p)`: the directory and everything below it is
removed. -/
def FS.rmtree (fs : FS) (p : String) : FS :=
  { dirs := fs.dirs.filter (fun d => ¬ strPrefix p d),
    files := fs.files.filter (fun f => ¬ strPrefix p f.1) }

/-- Writing a file replaces any previous file at that path. -/
def FS.writeFile (fs : FS) (p : String) (d : FileData) : FS :=
  { fs with files := (p, d) :: fs.files.filter (fun f => f.1 ≠ p) }

def FS.removeFile (fs : FS) (p : String) : FS :=
  { fs with files := fs.files.filter (fun f => f.1 ≠ p) }

/-- Effect of one event on the filesystem.  `extractZip` looks up the
archive currently at `zip` and creates one file per entry under `dest`
(`ZipFile.extractall(dest)`). -/
def FS.applyEvent (fs : FS) : Event → FS
  | .makedirs p => fs.makedirs p
  | .rmtree p => fs.rmtree p
  | .write p d => fs.writeFile p d
  | .remove p => fs.removeFile p
  | .extractZip zip dest =>
      match fs.lookupFile zip with
      | some d => d.zipEntries.foldl
          (fun a n => a.writeFile (dest ++ n) extractedFile) fs
      | none => fs
  | .netRequest _ => fs
  | .msg _ => fs

/-- Final filesystem after a sequence of events. -/
def FS.apply (fs : FS) (evs : List Event) : FS := evs.foldl FS.applyEvent fs

/-- Outcome of one call into the script: the events it performed, and the
uncaught Python exception that escaped it, if any. -/
structure Run where
  events : List Event
  raised : Option String
deriving DecidableEq, Repr

/-- Sequencing of script statements: if the first call raised, the next
statement of the caller never executes. -/
def seqRun (fs : FS) (r : Run) (k : FS → Run) : Run :=
  match r.raised with
  | some _ => r
  | none =>
      let r2 := k (fs.apply r.events)
      { events := r.events ++ r2.events, raised := r2.raised }

/-! ## `download_model` (prepare_data.py lines 11-51) -/

/-- Oracle for the external outcomes inside one `download_model` call:
whether `os.makedirs` succeeds (it sits *outside* the `try` block), whether
`gdown.download` succeeds, and the bytes it writes on success. -/
structure ModelOracle where
  makedirsOk : Bool
  gdownOk : Bool
  payload : FileData
deriving DecidableEq, Repr

/-- `download_model(test_session, model_type, file_id, task_name)`.

Builds `model_dir = ./{task_name}/{model_type}/{test_session}/models/`,
runs `os.makedirs(model_dir, exist_ok=True)` (not inside any `try`: a
filesystem failure there escapes the function), then inside `try` calls
`gdown.download` on `https://drive.google.com/uc?id={file_id}` writing to
`model_dir + "best_model-{model_type}.pth.tar"`; any exception from the
download is caught and reported on the console. -/
def download_model (fs : FS) (o : ModelOracle)
    (test_session model_type file_id task_name : String) : Run :=
  let _ := fs
  let model_dir :=
    "./" ++ task_name ++ "/" ++ model_type ++ "/" ++ test_session ++ "/models/"
  if ¬ o.makedirsOk then
    { events := [], raised := some "OSError: makedirs failed" }
  else
    let output_path := model_dir ++ "best_model-" ++ model_type ++ ".pth.tar"
    let download_url := "https://drive.google.com/uc?id=" ++ file_id
    if o.gdownOk then
      { events := [Event.makedirs model_dir, Event.netRequest download_url,
                   Event.write output_path o.payload],
        raised := none }
    else
      { events := [Event.makedirs model_dir, Event.netRequest download_url,
                   Event.msg "Error downloading model"],
        raised := none }

/-! ## `download_datasets` (prepare_data.py lines 53-187) -/

/-- Google Drive file id hard-coded at line 60. -/
def dataset_file_id : String := "1qyprFJNs1X-AaknwEMMXjkkIDqz_T0ab"

def datasets_dir : String := "./datasets/"

/-- `os.path.join(datasets_dir, "datasets.zip")`. -/
def zip_path : String := datasets_dir ++ "datasets.zip"

/-- URL of Method 1 (standard gdown, line 87). -/
def m1url : String := "https://drive.google.com/uc?id=" ++ dataset_file_id

/-- URL of Method 2 (fuzzy gdown, line 97). -/
def m2url : String :=
  "https://drive.google.com/file/d/" ++ dataset_file_id ++ "/view?usp=sharing"

/-- Base URL of Method 3 (direct requests, line 108); the confirm retries
reuse it with extra query parameters. -/
def m3url : String :=
  "https://drive.google.com/uc?export=download&id=" ++ dataset_file_id

/-- Oracle for one `gdown.download` call in the dataset cascade: whether it
succeeds, the bytes it leaves at `zip_path` (all of them on success, the
partial prefix on failure), and whether any bytes reached the disk at all
on failure. -/
structure GdownOutcome where
  ok : Bool
  data : FileData
  wroteAny : Bool
deriving DecidableEq, Repr

/-- Events of one gdown method: the request, then the file it left behind
(always on success; the partial file when a failed transfer had already
written bytes). -/
def gdownEvents (url : String) (o : GdownOutcome) : List Event :=
  Event.netRequest url ::
    (if o.ok || o.wroteAny then [Event.write zip_path o.data] else [])

/-- Oracle for Method 3 (raw requests with virus-scan bypass, lines
106-147).  `warningCookie` is the value of a `download_warning` cookie on
the first response, if present; `needsConfirmT` records whether the
response after cookie handling still looked like a virus-scan interstitial
or had a non-200 status (line 121); `status200` is the status check of the
final response (line 126); `streamOk` is whether the chunk loop ran to
completion; `data` are the bytes written to `zip_path` (all of them when
the stream completes, the partial prefix otherwise); `wroteAny` is whether
any chunk was written before an interrupted stream failed. -/
structure StageCOutcome where
  warningCookie : Option String
  needsConfirmT : Bool
  status200 : Bool
  streamOk : Bool
  data : FileData
  wroteAny : Bool
deriving DecidableEq, Repr

/-- Events of Method 3: the initial GET, the cookie-confirm retry if a
`download_warning` cookie was present, the `confirm=t` retry if the
interstitial was detected, then — only on a 200 status — the streamed
write (partial if the stream was interrupted after writing some chunks).
On a non-200 status the code raises `Exception(f"HTTP ...")`, caught by
the enclosing `except`, and nothing is written. -/
def stageCEvents (o : StageCOutcome) : List Event :=
  [Event.netRequest m3url] ++
  (match o.warningCookie with
   | some w => [Event.netRequest (m3url ++ "&confirm=" ++ w)]
   | none => []) ++
  (if o.needsConfirmT then [Event.netRequest (m3url ++ "&confirm=t")] else []) ++
  (if o.status200 then
     (if o.streamOk || o.wroteAny then [Event.write zip_path o.data] else [])
   else [])

/-- Method 3 sets `download_success = True` only when the final status was
200 and the chunk loop completed. -/
def stageCOk (o : StageCOutcome) : Bool := o.status200 && o.streamOk

/-- Oracle for one `download_datasets` call.  `rmtreeOk` and `makedirsOk`
are the outcomes of the directory reset (lines 66-72, *outside* any
`try`: a failure there escapes the function). -/
structure DataOracle where
  rmtreeOk : Bool
  makedirsOk : Bool
  m1 : GdownOutcome
  m2 : GdownOutcome
  m3 : StageCOutcome
deriving DecidableEq, Repr

/-- The fallback cascade (lines 84-147): Method 2 runs only inside the
`except` of Method 1, Method 3 only inside the `except` of Method 2.
Returns the events and the final `download_success` flag. -/
def cascadeEvents (o : DataOracle) : List Event × Bool :=
  if o.m1.ok then (gdownEvents m1url o.m1, true)
  else if o.m2.ok then
    (gdownEvents m1url o.m1 ++ gdownEvents m2url o.m2, true)
  else
    (gdownEvents m1url o.m1 ++ gdownEvents m2url o.m2 ++ stageCEvents o.m3,
     stageCOk o.m3)

/-- `download_datasets()`.

Reset (lines 66-73): if `./datasets/` exists, `shutil.rmtree` it (a
filesystem failure here escapes the function), then `os.makedirs` it
fresh (likewise outside any `try`).  Then the three-method download
cascade, then (lines 149-175) if the download succeeded and the zip file
exists: extract and delete the archive when `zipfile.is_zipfile` accepts
it, otherwise report an invalid archive; when every method failed, print
the manual-download instructions (lines 176-187). -/
def download_datasets (fs : FS) (o : DataOracle) : Run :=
  if fs.dirExists datasets_dir && !o.rmtreeOk then
    { events := [], raised := some "OSError: rmtree failed" }
  else
    let ev0 : List Event :=
      if fs.dirExists datasets_dir then [Event.rmtree datasets_dir] else []
    if ¬ o.makedirsOk then
      { events := ev0, raised := some "OSError: makedirs failed" }
    else
      let ev1 := ev0 ++ [Event.makedirs datasets_dir]
      let casc := cascadeEvents o
      let ev2 := ev1 ++ casc.1
      let fsAfter := fs.apply ev2
      if casc.2 && fsAfter.fileExists zip_path then
        match fsAfter.lookupFile zip_path with
        | some d =>
          if d.isZip then
            { events := ev2 ++ [Event.extractZip zip_path datasets_dir,
                                Event.remove zip_path,
                                Event.msg "Datasets extracted successfully"],
              raised := none }
          else
            { events :=
                ev2 ++ [Event.msg "Downloaded file is not a valid ZIP archive"],
              raised := none }
        | none =>
            { events := ev2 ++ [Event.msg "All download methods failed"],
              raised := none }
      else
        { events := ev2 ++ [Event.msg "All download methods failed"],
          raised := none }

/-! ## `download_vit_model` (prepare_data.py lines 258-303) -/

/-- Fixed public URL of the ViT-B-32 checkpoint (line 264). -/
def vit_model_url : String :=
  "https://openaipublic.azureedge.net/clip/models/40d365715913c9da98579312b702a82c18be219cc2a73407c4526f58eba950af/ViT-B-32.pt"

def nets_dir : String := "./nets/"

/-- `os.path.join(nets_dir, "ViT-B-32.pt")`. -/
def vit_output_path : String := nets_dir ++ "ViT-B-32.pt"

/-- Oracle for the `urllib.request.urlretrieve` call: whether the transfer
succeeds and the bytes it writes. -/
structure VitOracle where
  urlretrieveOk : Bool
  data : FileData
deriving DecidableEq, Repr

/-- `download_vit_model()`.

If a file already exists at `./nets/ViT-B-32.pt`, print its size and
return — no network request (lines 272-277).  Otherwise call
`urllib.request.urlretrieve` inside `try`.  The function never creates
`./nets/` (the source comments "Use existing nets directory"): when the
directory does not exist, `urlretrieve` opens the URL, then fails to open
the local file, and the exception is caught and reported. -/
def download_vit_model (fs : FS) (o : VitOracle) : Run :=
  if fs.fileExists vit_output_path then
    { events := [Event.msg "ViT-B-32.pt already exists"], raised := none }
  else
    if fs.dirExists nets_dir && o.urlretrieveOk then
      { events := [Event.netRequest vit_model_url,
                   Event.write vit_output_path o.data,
                   Event.msg "ViT-B-32 model downloaded successfully"],
        raised := none }
    else
      { events := [Event.netRequest vit_model_url,
                   Event.msg "Error downloading ViT-B-32 model"],
        raised := none }

/-! ## Command dispatcher (`__main__`, prepare_data.py lines 306-359) -/

/-- Parsed command-line arguments, with the argparse defaults
(lines 308-321). -/
structure Args where
  test_session : String := "session_09.25_00h27"
  model_type : String := "RecLMIS"
  download_model : Bool := false
  download_datasets : Bool := false
  download_vit : Bool := false
  download_all : Bool := false
  download_datasets_manual : Bool := false
deriving DecidableEq, Repr

/-- The two values each task-configuration module exposes
(`Config_covid19` and `Config_MosMedPlus` are collaborator modules outside
this script; the dispatcher reads `file_id` and `task_name` from each). -/
structure Configs where
  covid_file_id : String
  covid_task_name : String
  mos_file_id : String
  mos_task_name : String
deriving DecidableEq, Repr

/-- Oracles for every call the dispatcher may make: the two
`download_model` calls, the `download_datasets` call and the
`download_vit_model` call. -/
structure WorldOracle where
  model1 : ModelOracle
  model2 : ModelOracle
  dataset : DataOracle
  vit : VitOracle
deriving DecidableEq, Repr

/-- The `__main__` dispatch (lines 334-359).

In the `--download_all` and `--download_model` branches, `download_model`
is called with only `file_id=` and `task_name=` keywords, so
`test_session` and `model_type` take their Python defaults
(`"session_09.25_00h27"`, `"RecLMIS"`) — `args.test_session` and
`args.model_type` are not forwarded.  The final `else` (no flag selected)
calls `download_covid19_model(args.test_session, args.model_type)`, a name
defined nowhere in the script, so it raises an uncaught `NameError`. -/
def dispatch (fs : FS) (a : Args) (cfg : Configs) (o : WorldOracle) : Run :=
  if a.download_all then
    seqRun fs
      (download_model fs o.model1 "session_09.25_00h27" "RecLMIS"
        cfg.covid_file_id cfg.covid_task_name)
      (fun fs1 =>
        seqRun fs1
          (download_model fs1 o.model2 "session_09.25_00h27" "RecLMIS"
            cfg.mos_file_id cfg.mos_task_name)
          (fun fs2 =>
            seqRun fs2 (download_datasets fs2 o.dataset)
              (fun fs3 => download_vit_model fs3 o.vit)))
  else if a.download_model then
    seqRun fs
      (download_model fs o.model1 "session_09.25_00h27" "RecLMIS"
        cfg.covid_file_id cfg.covid_task_name)
      (fun fs1 =>
        download_model fs1 o.model2 "session_09.25_00h27" "RecLMIS"
          cfg.mos_file_id cfg.mos_task_name)
  else if a.download_datasets then
    download_datasets fs o.dataset
  else if a.download_datasets_manual then
    { events := [Event.msg "MANUAL DOWNLOAD REQUIRED"], raised := none }
  else if a.download_vit then
    download_vit_model fs o.vit
  else
    { events := [Event.msg "No specific option selected"],
      raised := some "NameError: name download_covid19_model is not defined" }

/-! ## Derived notions used by the statements -/

/-- The `download_success` flag at line 150 as a function of the oracle. -/
def cascadeOk (o : DataOracle) : Bool := o.m1.ok || o.m2.ok || stageCOk o.m3

/-- The contents of `datasets.zip` after a successful cascade: the payload
of the first method that succeeded. -/
def cascadeData (o : DataOracle) : FileData :=
  if o.m1.ok then o.m1.data else if o.m2.ok then o.m2.data else o.m3.data

/-- Reset events at the head of a `download_datasets` run. -/
def ddPre (fs : FS) : List Event :=
  if fs.dirExists datasets_dir then [Event.rmtree datasets_dir] else []

/-- Events after the cascade: extraction and archive removal when the
download succeeded and passed the `is_zipfile` check, the invalid-archive
report when it failed the check, the manual instructions when every
method failed. -/
def ddPost (o : DataOracle) : List Event :=
  if cascadeOk o then
    if (cascadeData o).isZip then
      [Event.extractZip zip_path datasets_dir, Event.remove zip_path,
       Event.msg "Datasets extracted successfully"]
    else
      [Event.msg "Downloaded file is not a valid ZIP archive"]
  else
    [Event.msg "All download methods failed"]

/-- Is this event one of Stage C's (Method 3's) network requests?  All of
them hit the export-download endpoint `m3url`, possibly with extra
confirmation parameters. -/
def isStageCReq : Event → Bool
  | Event.netRequest u => strPrefix m3url u
  | _ => false

/-- Trace property: every `write` is preceded by a `makedirs` of a
directory the written path lies in.  `made` accumulates the directories
created so far. -/
def writesCovered (made : List String) : List Event → Bool
  | [] => true
  | Event.makedirs p :: rest => writesCovered (p :: made) rest
  | Event.write p _ :: rest =>
      made.any (fun m => strPrefix m p) && writesCovered made rest
  | _ :: rest => writesCovered made rest

/-- Does this event read only archives lying under `dd`?  (All events
other than `extractZip` hold trivially: they do not read file contents.) -/
def zipUnder (dd : String) : Event → Bool
  | Event.extractZip z _ => strPrefix dd z
  | _ => true

/-- The part of the filesystem lying under the directory `dd`. -/
def FS.restrict (fs : FS) (dd : String) : FS :=
  { dirs := fs.dirs.filter (fun d => strPrefix dd d),
    files := fs.files.filter (fun f => strPrefix dd f.1) }

/-- Realizability of a filesystem state w.r.t. the directory `dd`: if the
directory does not exist, nothing lies under it.  Always true of a real
filesystem. -/
def FS.tidyUnder (fs : FS) (dd : String) : Bool :=
  fs.dirExists dd ||
    (fs.files.all (fun f => ¬ strPrefix dd f.1) &&
     fs.dirs.all (fun d => ¬ strPrefix dd d))

/-! ## Sanity checks on concrete inputs -/

example :
    (download_model ⟨["./"], []⟩ ⟨true, true, ⟨false, [], 7⟩⟩
      "session_09.25_00h27" "RecLMIS" "fid" "Covid19").events =
    [Event.makedirs "./Covid19/RecLMIS/session_09.25_00h27/models/",
     Event.netRequest "https://drive.google.com/uc?id=fid",
     Event.write "./Covid19/RecLMIS/session_09.25_00h27/models/best_model-RecLMIS.pth.tar"
       ⟨false, [], 7⟩] := by decide

example : dirAncestors "./Covid19/RecLMIS/s/models/" =
    ["./", "./Covid19/", "./Covid19/RecLMIS/", "./Covid19/RecLMIS/s/",
     "./Covid19/RecLMIS/s/models/"] := by decide

example :
    (download_datasets ⟨["./"], []⟩
      ⟨true, true, ⟨true, ⟨true, ["Covid19/"], 9⟩, true⟩,
       ⟨false, ⟨false, [], 0⟩, false⟩,
       ⟨none, false, false, false, ⟨false, [], 0⟩, false⟩⟩).events =
    [Event.makedirs datasets_dir, Event.netRequest m1url,
     Event.write zip_path ⟨true, ["Covid19/"], 9⟩,
     Event.extractZip zip_path datasets_dir, Event.remove zip_path,
     Event.msg "Datasets extracted successfully"] := by decide

/-! ## Basic lemmas about the model -/

theorem strPrefix_append (a b : String) : strPrefix a (a ++ b) = true := by
  simp only [strPrefix, String.data_append, List.isPrefixOf_iff_prefix]
  exact List.prefix_append _ _

theorem strPrefix_refl (a : String) : strPrefix a a = true := by
  simp [strPrefix, List.isPrefixOf_iff_prefix]

theorem FS.apply_nil (fs : FS) : fs.apply [] = fs := rfl

theorem FS.apply_cons (fs : FS) (e : Event) (l : List Event) :
    fs.apply (e :: l) = (fs.applyEvent e).apply l := rfl

theorem FS.apply_append (fs : FS) (l1 l2 : List Event) :
    fs.apply (l1 ++ l2) = (fs.apply l1).apply l2 :=
  List.foldl_append _ _ _ _

theorem FS.lookupFile_writeFile (fs : FS) (p : String) (d : FileData) :
    (fs.writeFile p d).lookupFile p = some d := by
  simp [FS.lookupFile, FS.writeFile, List.find?]

theorem FS.fileExists_writeFile (fs : FS) (p : String) (d : FileData) :
    (fs.writeFile p d).fileExists p = true := by
  simp [FS.fileExists, FS.writeFile]

/-! ## Structure of a `download_datasets` run -/

theorem cascadeEvents_snd (o : DataOracle) : (cascadeEvents o).2 = cascadeOk o := by
  unfold cascadeEvents cascadeOk
  cases h1 : o.m1.ok <;> cases h2 : o.m2.ok <;> simp

/-- After the cascade succeeds, the file at `zip_path` holds the payload of
the first successful method, whatever filesystem the cascade started
from. -/
theorem cascade_lookup (fs : FS) (o : DataOracle) (h : cascadeOk o = true) :
    (fs.apply (cascadeEvents o).1).lookupFile zip_path = some (cascadeData o) ∧
    (fs.apply (cascadeEvents o).1).fileExists zip_path = true := by
  unfold cascadeOk at h
  unfold cascadeEvents cascadeData
  cases h1 : o.m1.ok with
  | true =>
      simp [h1, gdownEvents, FS.apply_cons, FS.apply_nil, FS.applyEvent,
        FS.lookupFile_writeFile, FS.fileExists_writeFile]
  | false =>
      cases h2 : o.m2.ok with
      | true =>
          simp [h1, h2, gdownEvents, FS.apply_append, FS.apply_cons,
            FS.apply_nil, FS.applyEvent, FS.lookupFile_writeFile,
            FS.fileExists_writeFile]
      | false =>
          rw [h1, h2] at h
          simp only [Bool.false_or] at h
          unfold stageCOk at h
          simp only [Bool.and_eq_true] at h
          simp [h1, h2, stageCEvents, h.1, h.2, FS.apply_append,
            FS.apply_cons, FS.apply_nil, FS.applyEvent,
            FS.lookupFile_writeFile, FS.fileExists_writeFile]

/-- Normal form of a `download_datasets` run when the directory reset does
not hit a filesystem error: reset, fresh directory, cascade, then the
validate/extract (or report) phase; nothing is re-raised. -/
theorem download_datasets_shape (fs : FS) (o : DataOracle)
    (hr : o.rmtreeOk = true) (hm : o.makedirsOk = true) :
    download_datasets fs o =
      { events := ddPre fs ++ [Event.makedirs datasets_dir] ++
          (cascadeEvents o).1 ++ ddPost o,
        raised := none } := by
  unfold download_datasets ddPre ddPost
  simp only [hr, hm, Bool.not_true, Bool.and_false, Bool.not_false,
    if_false, ite_false, not_true_eq_false]
  simp only [Bool.false_eq_true, if_false]
  rw [cascadeEvents_snd]
  cases hc : cascadeOk o with
  | false =>
      simp [List.append_assoc]
  | true =>
      have hl := cascade_lookup ((fs.apply (ddPre fs)).applyEvent
        (Event.makedirs datasets_dir)) o hc
      rw [ddPre] at hl
      cases hd : fs.dirExists datasets_dir with
      | false =>
          simp only [hd, Bool.false_eq_true, if_false, FS.apply_nil] at hl
          simp only [hd, Bool.false_eq_true, if_false]
          simp only [FS.apply_append, FS.apply_cons, FS.apply_nil] at hl ⊢
          rw [hl.2, hl.1]
          simp only [Bool.true_and, if_true]
          cases hz : (cascadeData o).isZip <;> simp [List.append_assoc]
      | true =>
          simp only [hd, if_true] at hl
          simp only [hd, if_true]
          simp only [FS.apply_append, FS.apply_cons, FS.apply_nil] at hl ⊢
          rw [hl.2, hl.1]
          simp only [Bool.true_and, if_true]
          cases hz : (cascadeData o).isZip <;> simp [List.append_assoc]

/-- Every event of a gdown method is its network request or a write of its
payload to `zip_path`. -/
theorem gdownEvents_mem (url : String) (g : GdownOutcome) (e : Event)
    (h : e ∈ gdownEvents url g) :
    e = Event.netRequest url ∨ e = Event.write zip_path g.data := by
  unfold gdownEvents at h
  cases hc : (g.ok || g.wroteAny) <;> simp [hc] at h <;> tauto

/-- Every event of Method 3 is a network request against the
export-download endpoint or a write of its payload to `zip_path`. -/
theorem stageCEvents_mem (s : StageCOutcome) (e : Event)
    (h : e ∈ stageCEvents s) :
    (∃ u, e = Event.netRequest u ∧ strPrefix m3url u = true) ∨
    e = Event.write zip_path s.data := by
  unfold stageCEvents at h
  simp only [List.mem_append, List.mem_cons, List.not_mem_nil, or_false] at h
  rcases h with ((h | h) | h) | h
  · exact Or.inl ⟨m3url, h, strPrefix_refl _⟩
  · cases hw : s.warningCookie with
    | none => rw [hw] at h; simp at h
    | some w =>
        rw [hw] at h; simp at h
        refine Or.inl ⟨_, h, ?_⟩
        rw [String.append_assoc]
        exact strPrefix_append _ _
  · split at h
    · simp at h
      exact Or.inl ⟨_, h, strPrefix_append _ _⟩
    · simp at h
  · split at h
    · split at h
      · simp at h
        exact Or.inr h
      · simp at h
    · simp at h

/-- Every event of the cascade is a network request or a write to
`zip_path`. -/
theorem cascadeEvents_mem (o : DataOracle) (e : Event)
    (h : e ∈ (cascadeEvents o).1) :
    (∃ u, e = Event.netRequest u) ∨ ∃ d, e = Event.write zip_path d := by
  unfold cascadeEvents at h
  cases h1 : o.m1.ok with
  | true =>
      rw [h1] at h; simp only [if_true] at h
      rcases gdownEvents_mem _ _ _ h with h | h
      · exact Or.inl ⟨_, h⟩
      · exact Or.inr ⟨_, h⟩
  | false =>
      rw [h1] at h
      cases h2 : o.m2.ok with
      | true =>
          rw [h2] at h
          simp only [Bool.false_eq_true, if_false, if_true,
            List.mem_append] at h
          rcases h with h | h <;> rcases gdownEvents_mem _ _ _ h with h | h
          · exact Or.inl ⟨_, h⟩
          · exact Or.inr ⟨_, h⟩
          · exact Or.inl ⟨_, h⟩
          · exact Or.inr ⟨_, h⟩
      | false =>
          rw [h2] at h
          simp only [Bool.false_eq_true, if_false, List.mem_append] at h
          rcases h with (h | h) | h
          · rcases gdownEvents_mem _ _ _ h with h | h
            · exact Or.inl ⟨_, h⟩
            · exact Or.inr ⟨_, h⟩
          · rcases gdownEvents_mem _ _ _ h with h | h
            · exact Or.inl ⟨_, h⟩
            · exact Or.inr ⟨_, h⟩
          · rcases stageCEvents_mem _ _ h with ⟨u, hu, _⟩ | h
            · exact Or.inl ⟨_, hu⟩
            · exact Or.inr ⟨_, h⟩

/-- Every file the cascade writes is `zip_path`. -/
theorem cascadeEvents_write (o : DataOracle) (p : String) (d : FileData)
    (h : Event.write p d ∈ (cascadeEvents o).1) : p = zip_path := by
  rcases cascadeEvents_mem o _ h with ⟨u, hu⟩ | ⟨d0, hd0⟩
  · exact absurd hu (by simp)
  · simp only [Event.write.injEq] at hd0
    exact hd0.1

theorem cascadeEvents_m1true (o : DataOracle) (h1 : o.m1.ok = true) :
    (cascadeEvents o).1 = gdownEvents m1url o.m1 := by
  simp [cascadeEvents, h1]

theorem cascadeEvents_m2true (o : DataOracle) (h1 : o.m1.ok = false)
    (h2 : o.m2.ok = true) :
    (cascadeEvents o).1 = gdownEvents m1url o.m1 ++ gdownEvents m2url o.m2 := by
  simp [cascadeEvents, h1, h2]

theorem cascadeEvents_allfail (o : DataOracle) (h1 : o.m1.ok = false)
    (h2 : o.m2.ok = false) :
    (cascadeEvents o).1 =
      gdownEvents m1url o.m1 ++ gdownEvents m2url o.m2 ++ stageCEvents o.m3 := by
  simp [cascadeEvents, h1, h2]

theorem cascadeEvents_m1 (o : DataOracle) :
    Event.netRequest m1url ∈ (cascadeEvents o).1 := by
  unfold cascadeEvents gdownEvents
  cases h1 : o.m1.ok <;> cases h2 : o.m2.ok <;> simp

theorem mem_ddPre (fs : FS) (e : Event) (h : e ∈ ddPre fs) :
    e = Event.rmtree datasets_dir := by
  unfold ddPre at h
  split at h
  · simpa using h
  · simp at h

theorem mem_ddPost (o : DataOracle) (e : Event) (h : e ∈ ddPost o) :
    e = Event.extractZip zip_path datasets_dir ∨ e = Event.remove zip_path ∨
      ∃ s, e = Event.msg s := by
  unfold ddPost at h
  split at h
  · split at h
    · simp only [List.mem_cons, List.not_mem_nil, or_false] at h
      rcases h with h | h | h
      · exact Or.inl h
      · exact Or.inr (Or.inl h)
      · exact Or.inr (Or.inr ⟨_, h⟩)
    · simp only [List.mem_cons, List.not_mem_nil, or_false] at h
      exact Or.inr (Or.inr ⟨_, h⟩)
  · simp only [List.mem_cons, List.not_mem_nil, or_false] at h
    exact Or.inr (Or.inr ⟨_, h⟩)

/-! ## Claim C3 -/

/-- Case analysis for membership in the normal form of a
`download_datasets` event list. -/
theorem mem_shape_cases (fs : FS) (o : DataOracle) (e : Event)
    (h : e ∈ ddPre fs ++ [Event.makedirs datasets_dir] ++
      (cascadeEvents o).1 ++ ddPost o) :
    e = Event.rmtree datasets_dir ∨ e = Event.makedirs datasets_dir ∨
      e ∈ (cascadeEvents o).1 ∨ e ∈ ddPost o := by
  rcases List.mem_append.mp h with h | h
  · rcases List.mem_append.mp h with h | h
    · rcases List.mem_append.mp h with h | h
      · exact Or.inl (mem_ddPre fs _ h)
      · simp only [List.mem_singleton] at h
        exact Or.inr (Or.inl h)
    · exact Or.inr (Or.inr (Or.inl h))
  · exact Or.inr (Or.inr (Or.inr h))

/-- Cascade events belong to the normal form of a `download_datasets`
event list. -/
theorem mem_shape_of_casc (fs : FS) (o : DataOracle) (e : Event)
    (h : e ∈ (cascadeEvents o).1) :
    e ∈ ddPre fs ++ [Event.makedirs datasets_dir] ++
      (cascadeEvents o).1 ++ ddPost o := by
  exact List.mem_append.mpr (Or.inl (List.mem_append.mpr (Or.inr h)))

/-- **C3**: in every run of the dataset fetcher (whose directory reset does
not hit a filesystem error), the fallback cascade short-circuits on first
success: Method 1 (direct transport) is always attempted; if it succeeds,
Method 2 and Method 3 are never attempted; if it fails and Method 2 (fuzzy
transport) succeeds, Method 3 is skipped entirely; Method 2 runs only
after Method 1 failed, and Method 3 only after both failed. -/
theorem C3_cascade_short_circuits (fs : FS) (o : DataOracle)
    (hr : o.rmtreeOk = true) (hm : o.makedirsOk = true) :
    (Event.netRequest m1url ∈ (download_datasets fs o).events) ∧
    (o.m1.ok = true →
      Event.netRequest m2url ∉ (download_datasets fs o).events ∧
      ∀ e ∈ (download_datasets fs o).events, isStageCReq e = false) ∧
    (o.m1.ok = false → o.m2.ok = true →
      Event.netRequest m2url ∈ (download_datasets fs o).events ∧
      ∀ e ∈ (download_datasets fs o).events, isStageCReq e = false) ∧
    (Event.netRequest m2url ∈ (download_datasets fs o).events →
      o.m1.ok = false) ∧
    ((∃ e ∈ (download_datasets fs o).events, isStageCReq e = true) →
      o.m1.ok = false ∧ o.m2.ok = false) := by
  rw [download_datasets_shape fs o hr hm]
  refine ⟨mem_shape_of_casc fs o _ (cascadeEvents_m1 o), ?_, ?_, ?_, ?_⟩
  · -- Method 1 succeeded: no Method 2 request, no Stage C request
    intro h1
    constructor
    · intro hmem
      rcases mem_shape_cases fs o _ hmem with h | h | h | h
      · simp at h
      · simp at h
      · rw [cascadeEvents_m1true o h1] at h
        rcases gdownEvents_mem _ _ _ h with h | h
        · simp only [Event.netRequest.injEq] at h
          exact absurd h (by decide)
        · simp at h
      · rcases mem_ddPost o _ h with h | h | ⟨s, h⟩ <;> simp at h
    · intro e hmem
      rcases mem_shape_cases fs o _ hmem with h | h | h | h
      · rw [h]; rfl
      · rw [h]; rfl
      · rw [cascadeEvents_m1true o h1] at h
        rcases gdownEvents_mem _ _ _ h with h | h <;> rw [h]
        · simp only [isStageCReq]; decide
        · rfl
      · rcases mem_ddPost o _ h with h | h | ⟨s, h⟩ <;> rw [h] <;> rfl
  · -- Method 1 failed, Method 2 succeeded: Method 2 attempted, no Stage C
    intro h1 h2
    constructor
    · refine mem_shape_of_casc fs o _ ?_
      rw [cascadeEvents_m2true o h1 h2]
      simp [gdownEvents]
    · intro e hmem
      rcases mem_shape_cases fs o _ hmem with h | h | h | h
      · rw [h]; rfl
      · rw [h]; rfl
      · rw [cascadeEvents_m2true o h1 h2] at h
        rcases List.mem_append.mp h with h | h <;>
          rcases gdownEvents_mem _ _ _ h with h | h <;> rw [h]
        · simp only [isStageCReq]; decide
        · rfl
        · simp only [isStageCReq]; decide
        · rfl
      · rcases mem_ddPost o _ h with h | h | ⟨s, h⟩ <;> rw [h] <;> rfl
  · -- a Method 2 request implies Method 1 failed
    intro hmem
    cases h1 : o.m1.ok with
    | false => rfl
    | true =>
        exfalso
        rcases mem_shape_cases fs o _ hmem with h | h | h | h
        · simp at h
        · simp at h
        · rw [cascadeEvents_m1true o h1] at h
          rcases gdownEvents_mem _ _ _ h with h | h
          · simp only [Event.netRequest.injEq] at h
            exact absurd h (by decide)
          · simp at h
        · rcases mem_ddPost o _ h with h | h | ⟨s, h⟩ <;> simp at h
  · -- a Stage C request implies both earlier methods failed
    rintro ⟨e, he, hreq⟩
    have key : ∀ e0 ∈ (cascadeEvents o).1, isStageCReq e0 = true →
        o.m1.ok = false ∧ o.m2.ok = false := by
      intro e0 he0 hr0
      cases h1 : o.m1.ok with
      | true =>
          exfalso
          rw [cascadeEvents_m1true o h1] at he0
          rcases gdownEvents_mem _ _ _ he0 with h | h <;> rw [h] at hr0
          · simp only [isStageCReq] at hr0
            exact absurd hr0 (by decide)
          · simp [isStageCReq] at hr0
      | false =>
          cases h2 : o.m2.ok with
          | true =>
              exfalso
              rw [cascadeEvents_m2true o h1 h2] at he0
              rcases List.mem_append.mp he0 with h | h <;>
                rcases gdownEvents_mem _ _ _ h with h | h <;> rw [h] at hr0
              · simp only [isStageCReq] at hr0
                exact absurd hr0 (by decide)
              · simp [isStageCReq] at hr0
              · simp only [isStageCReq] at hr0
                exact absurd hr0 (by decide)
              · simp [isStageCReq] at hr0
          | false => exact ⟨rfl, rfl⟩
    rcases mem_shape_cases fs o _ he with h | h | h | h
    · rw [h] at hreq
      simp [isStageCReq] at hreq
    · rw [h] at hreq
      simp [isStageCReq] at hreq
    · exact key e h hreq
    · rcases mem_ddPost o _ h with h0 | h0 | ⟨s, h0⟩ <;> rw [h0] at hreq <;>
        simp [isStageCReq] at hreq

/-- Witness for C3: run it with Method 1 succeeding on a fresh filesystem. -/
theorem C3_cascade_short_circuits_witness :
    ((⟨true, true, ⟨true, ⟨true, ["Covid19/"], 9⟩, false⟩,
       ⟨false, ⟨false, [], 0⟩, false⟩,
       ⟨none, false, false, false, ⟨false, [], 0⟩, false⟩⟩ :
         DataOracle).rmtreeOk = true) ∧
    ((⟨true, true, ⟨true, ⟨true, ["Covid19/"], 9⟩, false⟩,
       ⟨false, ⟨false, [], 0⟩, false⟩,
       ⟨none, false, false, false, ⟨false, [], 0⟩, false⟩⟩ :
         DataOracle).makedirsOk = true) ∧
    ((Event.netRequest m1url ∈
      (download_datasets ⟨["./"], []⟩
        ⟨true, true, ⟨true, ⟨true, ["Covid19/"], 9⟩, false⟩,
         ⟨false, ⟨false, [], 0⟩, false⟩,
         ⟨none, false, false, false, ⟨false, [], 0⟩, false⟩⟩).events) ∧
    ((⟨true, true, ⟨true, ⟨true, ["Covid19/"], 9⟩, false⟩,
       ⟨false, ⟨false, [], 0⟩, false⟩,
       ⟨none, false, false, false, ⟨false, [], 0⟩, false⟩⟩ :
         DataOracle).m1.ok = true →
      Event.netRequest m2url ∉
        (download_datasets ⟨["./"], []⟩
          ⟨true, true, ⟨true, ⟨true, ["Covid19/"], 9⟩, false⟩,
           ⟨false, ⟨false, [], 0⟩, false⟩,
           ⟨none, false, false, false, ⟨false, [], 0⟩, false⟩⟩).events ∧
      ∀ e ∈ (download_datasets ⟨["./"], []⟩
          ⟨true, true, ⟨true, ⟨true, ["Covid19/"], 9⟩, false⟩,
           ⟨false, ⟨false, [], 0⟩, false⟩,
           ⟨none, false, false, false, ⟨false, [], 0⟩, false⟩⟩).events,
        isStageCReq e = false) ∧
    ((⟨true, true, ⟨true, ⟨true, ["Covid19/"], 9⟩, false⟩,
       ⟨false, ⟨false, [], 0⟩, false⟩,
       ⟨none, false, false, false, ⟨false, [], 0⟩, false⟩⟩ :
         DataOracle).m1.ok = false →
     (⟨true, true, ⟨true, ⟨true, ["Covid19/"], 9⟩, false⟩,
       ⟨false, ⟨false, [], 0⟩, false⟩,
       ⟨none, false, false, false, ⟨false, [], 0⟩, false⟩⟩ :
         DataOracle).m2.ok = true →
      Event.netRequest m2url ∈
        (download_datasets ⟨["./"], []⟩
          ⟨true, true, ⟨true, ⟨true, ["Covid19/"], 9⟩, false⟩,
           ⟨false, ⟨false, [], 0⟩, false⟩,
           ⟨none, false, false, false, ⟨false, [], 0⟩, false⟩⟩).events ∧
      ∀ e ∈ (download_datasets ⟨["./"], []⟩
          ⟨true, true, ⟨true, ⟨true, ["Covid19/"], 9⟩, false⟩,
           ⟨false, ⟨false, [], 0⟩, false⟩,
           ⟨none, false, false, false, ⟨false, [], 0⟩, false⟩⟩).events,
        isStageCReq e = false) ∧
    (Event.netRequest m2url ∈
        (download_datasets ⟨["./"], []⟩
          ⟨true, true, ⟨true, ⟨true, ["Covid19/"], 9⟩, false⟩,
           ⟨false, ⟨false, [], 0⟩, false⟩,
           ⟨none, false, false, false, ⟨false, [], 0⟩, false⟩⟩).events →
      (⟨true, true, ⟨true, ⟨true, ["Covid19/"], 9⟩, false⟩,
        ⟨false, ⟨false, [], 0⟩, false⟩,
        ⟨none, false, false, false, ⟨false, [], 0⟩, false⟩⟩ :
          DataOracle).m1.ok = false) ∧
    ((∃ e ∈ (download_datasets ⟨["./"], []⟩
          ⟨true, true, ⟨true, ⟨true, ["Covid19/"], 9⟩, false⟩,
           ⟨false, ⟨false, [], 0⟩, false⟩,
           ⟨none, false, false, false, ⟨false, [], 0⟩, false⟩⟩).events,
        isStageCReq e = true) →
      (⟨true, true, ⟨true, ⟨true, ["Covid19/"], 9⟩, false⟩,
        ⟨false, ⟨false, [], 0⟩, false⟩,
        ⟨none, false, false, false, ⟨false, [], 0⟩, false⟩⟩ :
          DataOracle).m1.ok = false ∧
      (⟨true, true, ⟨true, ⟨true, ["Covid19/"], 9⟩, false⟩,
        ⟨false, ⟨false, [], 0⟩, false⟩,
        ⟨none, false, false, false, ⟨false, [], 0⟩, false⟩⟩ :
          DataOracle).m2.ok = false)) :=
  ⟨rfl, rfl, C3_cascade_short_circuits ⟨["./"], []⟩ _ rfl rfl⟩

/-! ## Claim C4 -/

/-- **C4**: after a successful download stage (with the reset not hitting a
filesystem error), the dataset fetcher attempts extraction if and only if
the downloaded file passes the `is_zipfile` check: when the check fails it
reports the invalid-archive failure and performs no extraction and no
archive deletion; when it passes it extracts into the dataset directory
and then deletes the archive. -/
theorem C4_validate_then_extract (fs : FS) (o : DataOracle)
    (hr : o.rmtreeOk = true) (hm : o.makedirsOk = true)
    (hs : cascadeOk o = true) :
    ((cascadeData o).isZip = true →
      ∃ pre, (download_datasets fs o).events =
        pre ++ [Event.extractZip zip_path datasets_dir, Event.remove zip_path,
                Event.msg "Datasets extracted successfully"]) ∧
    ((cascadeData o).isZip = false →
      Event.msg "Downloaded file is not a valid ZIP archive" ∈
        (download_datasets fs o).events ∧
      (∀ z dest, Event.extractZip z dest ∉ (download_datasets fs o).events) ∧
      (∀ p, Event.remove p ∉ (download_datasets fs o).events)) := by
  rw [download_datasets_shape fs o hr hm]
  constructor
  · intro hz
    refine ⟨ddPre fs ++ [Event.makedirs datasets_dir] ++ (cascadeEvents o).1, ?_⟩
    simp [ddPost, hs, hz]
  · intro hz
    refine ⟨?_, ?_, ?_⟩
    · refine List.mem_append.mpr (Or.inr ?_)
      simp [ddPost, hs, hz]
    · intro z dest hmem
      rcases mem_shape_cases fs o _ hmem with h | h | h | h
      · simp at h
      · simp at h
      · rcases cascadeEvents_mem o _ h with ⟨u, hu⟩ | ⟨d, hd⟩
        · simp at hu
        · simp at hd
      · simp [ddPost, hs, hz] at h
    · intro p hmem
      rcases mem_shape_cases fs o _ hmem with h | h | h | h
      · simp at h
      · simp at h
      · rcases cascadeEvents_mem o _ h with ⟨u, hu⟩ | ⟨d, hd⟩
        · simp at hu
        · simp at hd
      · simp [ddPost, hs, hz] at h

/-- Witness for C4: Method 1 returns an HTML error page (not a zip) on a
fresh filesystem — the invalid-archive branch fires and nothing is
extracted. -/
theorem C4_validate_then_extract_witness :
    ((⟨true, true, ⟨true, ⟨false, [], 2⟩, false⟩, ⟨false, ⟨false, [], 0⟩, false⟩,
       ⟨none, false, false, false, ⟨false, [], 0⟩, false⟩⟩ :
         DataOracle).rmtreeOk = true) ∧
    ((⟨true, true, ⟨true, ⟨false, [], 2⟩, false⟩, ⟨false, ⟨false, [], 0⟩, false⟩,
       ⟨none, false, false, false, ⟨false, [], 0⟩, false⟩⟩ :
         DataOracle).makedirsOk = true) ∧
    (cascadeOk ⟨true, true, ⟨true, ⟨false, [], 2⟩, false⟩,
       ⟨false, ⟨false, [], 0⟩, false⟩,
       ⟨none, false, false, false, ⟨false, [], 0⟩, false⟩⟩ = true) ∧
    (((cascadeData ⟨true, true, ⟨true, ⟨false, [], 2⟩, false⟩,
        ⟨false, ⟨false, [], 0⟩, false⟩,
        ⟨none, false, false, false, ⟨false, [], 0⟩, false⟩⟩).isZip = true →
      ∃ pre, (download_datasets ⟨["./"], []⟩
          ⟨true, true, ⟨true, ⟨false, [], 2⟩, false⟩,
           ⟨false, ⟨false, [], 0⟩, false⟩,
           ⟨none, false, false, false, ⟨false, [], 0⟩, false⟩⟩).events =
        pre ++ [Event.extractZip zip_path datasets_dir, Event.remove zip_path,
                Event.msg "Datasets extracted successfully"]) ∧
    ((cascadeData ⟨true, true, ⟨true, ⟨false, [], 2⟩, false⟩,
        ⟨false, ⟨false, [], 0⟩, false⟩,
        ⟨none, false, false, false, ⟨false, [], 0⟩, false⟩⟩).isZip = false →
      Event.msg "Downloaded file is not a valid ZIP archive" ∈
        (download_datasets ⟨["./"], []⟩
          ⟨true, true, ⟨true, ⟨false, [], 2⟩, false⟩,
           ⟨false, ⟨false, [], 0⟩, false⟩,
           ⟨none, false, false, false, ⟨false, [], 0⟩, false⟩⟩).events ∧
      (∀ z dest, Event.extractZip z dest ∉
        (download_datasets ⟨["./"], []⟩
          ⟨true, true, ⟨true, ⟨false, [], 2⟩, false⟩,
           ⟨false, ⟨false, [], 0⟩, false⟩,
           ⟨none, false, false, false, ⟨false, [], 0⟩, false⟩⟩).events) ∧
      (∀ p, Event.remove p ∉
        (download_datasets ⟨["./"], []⟩
          ⟨true, true, ⟨true, ⟨false, [], 2⟩, false⟩,
           ⟨false, ⟨false, [], 0⟩, false⟩,
           ⟨none, false, false, false, ⟨false, [], 0⟩, false⟩⟩).events))) :=
  ⟨rfl, rfl, rfl, C4_validate_then_extract ⟨["./"], []⟩ _ rfl rfl rfl⟩

/-! ## Restriction machinery for claims C5 and C10 -/

theorem filter_comm {α : Type} (p q : α → Bool) (l : List α) :
    (l.filter p).filter q = (l.filter q).filter p := by
  rw [List.filter_filter, List.filter_filter]
  apply List.filter_congr
  intro a _
  cases p a <;> cases q a <;> rfl

theorem filter_not_self (dd : String) (l : List String) :
    (l.filter (fun a => ¬ strPrefix dd a)).filter (fun a => strPrefix dd a) =
      [] := by
  rw [List.filter_eq_nil_iff]
  intro a ha
  rcases List.mem_filter.mp ha with ⟨_, hna⟩
  simp at hna
  simp [hna]

/-- Filtering files by a predicate the looked-up path satisfies does not
change the lookup. -/
theorem lookupFile_filter (q : String → Bool) (z : String) (hq : q z = true)
    (files : List (String × FileData)) :
    (List.find? (fun f => f.1 = z) (files.filter (fun f => q f.1))).map
        Prod.snd =
      (List.find? (fun f => f.1 = z) files).map Prod.snd := by
  have key : List.find? (fun f : String × FileData => f.1 = z)
      (files.filter (fun f => q f.1)) =
      List.find? (fun f : String × FileData => f.1 = z) files := by
    induction files with
    | nil => rfl
    | cons hd tl ih =>
        obtain ⟨p0, d0⟩ := hd
        rw [List.filter_cons]
        by_cases hz : p0 = z
        · subst hz
          rw [if_pos (show q (p0, d0).1 = true from hq)]
          rw [List.find?_cons_of_pos _ (by simp),
            List.find?_cons_of_pos _ (by simp)]
        · by_cases hqh : q p0 = true
          · rw [if_pos (show q (p0, d0).1 = true from hqh)]
            rw [List.find?_cons_of_neg _ (by simp [hz]),
              List.find?_cons_of_neg _ (by simp [hz])]
            exact ih
          · rw [if_neg (show ¬ q (p0, d0).1 = true from hqh)]
            rw [List.find?_cons_of_neg _ (by simp [hz])]
            exact ih
  rw [key]

theorem FS.lookupFile_restrict (fs : FS) (dd z : String)
    (h : strPrefix dd z = true) :
    (fs.restrict dd).lookupFile z = fs.lookupFile z := by
  unfold FS.restrict FS.lookupFile
  exact lookupFile_filter (fun a => strPrefix dd a) z h fs.files

/-- Writing the same file into two states that agree under `dd` keeps them
agreeing under `dd`. -/
theorem restrict_writeFile_congr (dd : String) (s1 s2 : FS) (p : String)
    (d : FileData) (h : s1.restrict dd = s2.restrict dd) :
    (s1.writeFile p d).restrict dd = (s2.writeFile p d).restrict dd := by
  have hf : List.filter (fun f => strPrefix dd f.1) s1.files =
      List.filter (fun f => strPrefix dd f.1) s2.files := congrArg FS.files h
  have hdd : List.filter (fun x => strPrefix dd x) s1.dirs =
      List.filter (fun x => strPrefix dd x) s2.dirs := congrArg FS.dirs h
  unfold FS.writeFile FS.restrict
  simp only [List.filter_cons]
  rw [filter_comm (fun f => f.1 ≠ p) (fun f => strPrefix dd f.1) s1.files,
    filter_comm (fun f => f.1 ≠ p) (fun f => strPrefix dd f.1) s2.files,
    hf, hdd]

theorem restrict_foldWrites_congr (dd dest : String) (names : List String) :
    ∀ s1 s2 : FS, s1.restrict dd = s2.restrict dd →
    (names.foldl (fun a n => a.writeFile (dest ++ n) extractedFile)
      s1).restrict dd =
    (names.foldl (fun a n => a.writeFile (dest ++ n) extractedFile)
      s2).restrict dd := by
  induction names with
  | nil => intro s1 s2 h; exact h
  | cons n rest ih =>
      intro s1 s2 h
      exact ih _ _ (restrict_writeFile_congr dd s1 s2 _ _ h)

/-- One step of the congruence: applying any event whose archive reads lie
under `dd` to two states that agree under `dd` keeps them agreeing. -/
theorem restrict_applyEvent_congr (dd : String) (s1 s2 : FS) (e : Event)
    (hz : zipUnder dd e = true) (h : s1.restrict dd = s2.restrict dd) :
    (s1.applyEvent e).restrict dd = (s2.applyEvent e).restrict dd := by
  have hf : List.filter (fun f => strPrefix dd f.1) s1.files =
      List.filter (fun f => strPrefix dd f.1) s2.files := congrArg FS.files h
  have hdd : List.filter (fun x => strPrefix dd x) s1.dirs =
      List.filter (fun x => strPrefix dd x) s2.dirs := congrArg FS.dirs h
  cases e with
  | makedirs p =>
      simp only [FS.applyEvent]
      unfold FS.makedirs FS.restrict
      simp only [List.filter_append]
      rw [hf, hdd]
  | rmtree p =>
      simp only [FS.applyEvent]
      unfold FS.rmtree FS.restrict
      rw [filter_comm (fun f => ¬ strPrefix p f.1)
          (fun f => strPrefix dd f.1) s1.files,
        filter_comm (fun f => ¬ strPrefix p f.1)
          (fun f => strPrefix dd f.1) s2.files,
        filter_comm (fun x => ¬ strPrefix p x)
          (fun x => strPrefix dd x) s1.dirs,
        filter_comm (fun x => ¬ strPrefix p x)
          (fun x => strPrefix dd x) s2.dirs,
        hf, hdd]
  | write p d =>
      simp only [FS.applyEvent]
      exact restrict_writeFile_congr dd s1 s2 p d h
  | remove p =>
      simp only [FS.applyEvent]
      unfold FS.removeFile FS.restrict
      rw [filter_comm (fun f => f.1 ≠ p) (fun f => strPrefix dd f.1) s1.files,
        filter_comm (fun f => f.1 ≠ p) (fun f => strPrefix dd f.1) s2.files,
        hf, hdd]
  | extractZip z dest =>
      have hpz : strPrefix dd z = true := hz
      have hl : s1.lookupFile z = s2.lookupFile z := by
        rw [← FS.lookupFile_restrict s1 dd z hpz,
          ← FS.lookupFile_restrict s2 dd z hpz, h]
      simp only [FS.applyEvent]
      rw [hl]
      cases hv : s2.lookupFile z with
      | none => exact h
      | some d0 => exact restrict_foldWrites_congr dd dest d0.zipEntries s1 s2 h
  | netRequest u => simpa only [FS.applyEvent] using h
  | msg s => simpa only [FS.applyEvent] using h

theorem restrict_apply_congr (dd : String) (evs : List Event) :
    ∀ s1 s2 : FS, (∀ e ∈ evs, zipUnder dd e = true) →
    s1.restrict dd = s2.restrict dd →
    (s1.apply evs).restrict dd = (s2.apply evs).restrict dd := by
  induction evs with
  | nil => intro s1 s2 _ h; exact h
  | cons e rest ih =>
      intro s1 s2 hz h
      exact ih _ _ (fun e0 he0 => hz e0 (List.mem_cons_of_mem _ he0))
        (restrict_applyEvent_congr dd s1 s2 e (hz e (List.mem_cons_self _ _)) h)

theorem filter_not_self_pairs (dd : String) (l : List (String × FileData)) :
    (l.filter (fun f => ¬ strPrefix dd f.1)).filter
      (fun f => strPrefix dd f.1) = [] := by
  rw [List.filter_eq_nil_iff]
  intro a ha
  rcases List.mem_filter.mp ha with ⟨_, hna⟩
  simp at hna
  simp [hna]

theorem dirAncestors_datasets : dirAncestors datasets_dir =
    ["./", "./datasets/"] := by decide

/-- State of the filesystem right after the reset phase of
`download_datasets` (lines 66-73): the dataset directory exists and is
empty — no file and no directory strictly below it. -/
theorem reset_state (fs : FS) (htidy : fs.tidyUnder datasets_dir = true) :
    (∀ p, strPrefix datasets_dir p = true →
      (fs.apply (ddPre fs ++ [Event.makedirs datasets_dir])).fileExists p =
        false) ∧
    (∀ d, strPrefix datasets_dir d = true →
      (fs.apply (ddPre fs ++ [Event.makedirs datasets_dir])).dirExists d =
        true → d = datasets_dir) ∧
    (fs.apply (ddPre fs ++
      [Event.makedirs datasets_dir])).dirExists datasets_dir = true ∧
    (fs.apply (ddPre fs ++ [Event.makedirs datasets_dir])).restrict
      datasets_dir = FS.mk [datasets_dir] [] := by
  unfold FS.tidyUnder at htidy
  cases hd : fs.dirExists datasets_dir with
  | true =>
      have hshape : fs.apply (ddPre fs ++ [Event.makedirs datasets_dir]) =
          (fs.rmtree datasets_dir).makedirs datasets_dir := by
        simp [ddPre, hd, FS.apply, FS.applyEvent]
      rw [hshape]
      unfold FS.rmtree FS.makedirs FS.fileExists FS.dirExists FS.restrict
      simp only []
      refine ⟨?_, ?_, ?_, ?_⟩
      · intro p hp
        by_contra hx
        rw [Bool.not_eq_false, List.any_eq_true] at hx
        rcases hx with ⟨f, hf, hfp⟩
        rcases List.mem_filter.mp hf with ⟨_, hn⟩
        simp only [decide_eq_true_eq] at hfp
        rw [hfp] at hn
        simp [hp] at hn
      · intro d hdp hex
        rw [List.any_append, Bool.or_eq_true] at hex
        rcases hex with hex | hex
        · exfalso
          rw [List.any_eq_true] at hex
          rcases hex with ⟨x, hx, hxd⟩
          rcases List.mem_filter.mp hx with ⟨_, hn⟩
          simp only [decide_eq_true_eq] at hxd
          rw [hxd] at hn
          simp [hdp] at hn
        · rw [dirAncestors_datasets, List.any_eq_true] at hex
          rcases hex with ⟨x, hx, hxd⟩
          simp only [decide_eq_true_eq] at hxd
          subst hxd
          rcases List.mem_cons.mp hx with hx | hx
          · subst hx
            exact absurd hdp (by decide)
          · simp only [List.mem_singleton] at hx
            exact hx
      · rw [List.any_append, Bool.or_eq_true]
        right
        rw [dirAncestors_datasets]
        decide
      · rw [dirAncestors_datasets]
        rw [List.filter_append, filter_not_self, filter_not_self_pairs]
        rfl
  | false =>
      rw [hd] at htidy
      simp only [Bool.false_or, Bool.and_eq_true, List.all_eq_true] at htidy
      rcases htidy with ⟨hfiles, hdirs⟩
      have hshape : fs.apply (ddPre fs ++ [Event.makedirs datasets_dir]) =
          fs.makedirs datasets_dir := by
        simp [ddPre, hd, FS.apply, FS.applyEvent]
      rw [hshape]
      unfold FS.makedirs FS.fileExists FS.dirExists FS.restrict
      simp only []
      have hfilt : fs.files.filter (fun f => strPrefix datasets_dir f.1) =
          [] := by
        rw [List.filter_eq_nil_iff]
        intro a ha
        have := hfiles a ha
        simp at this
        simp [this]
      have hfiltd : fs.dirs.filter (fun x => strPrefix datasets_dir x) =
          [] := by
        rw [List.filter_eq_nil_iff]
        intro a ha
        have := hdirs a ha
        simp at this
        simp [this]
      refine ⟨?_, ?_, ?_, ?_⟩
      · intro p hp
        by_contra hx
        rw [Bool.not_eq_false, List.any_eq_true] at hx
        rcases hx with ⟨f, hf, hfp⟩
        simp only [decide_eq_true_eq] at hfp
        have := hfiles f hf
        rw [hfp] at this
        simp [hp] at this
      · intro d hdp hex
        rw [List.any_append, Bool.or_eq_true] at hex
        rcases hex with hex | hex
        · exfalso
          rw [List.any_eq_true] at hex
          rcases hex with ⟨x, hx, hxd⟩
          simp only [decide_eq_true_eq] at hxd
          have := hdirs x hx
          rw [hxd] at this
          simp [hdp] at this
        · rw [dirAncestors_datasets, List.any_eq_true] at hex
          rcases hex with ⟨x, hx, hxd⟩
          simp only [decide_eq_true_eq] at hxd
          subst hxd
          rcases List.mem_cons.mp hx with hx | hx
          · subst hx
            exact absurd hdp (by decide)
          · simp only [List.mem_singleton] at hx
            exact hx
      · rw [List.any_append, Bool.or_eq_true]
        right
        rw [dirAncestors_datasets]
        decide
      · rw [dirAncestors_datasets]
        rw [List.filter_append, hfiltd, hfilt]
        rfl

theorem tail_zipUnder (o : DataOracle) :
    ∀ e ∈ (cascadeEvents o).1 ++ ddPost o, zipUnder datasets_dir e = true := by
  intro e he
  rcases List.mem_append.mp he with h | h
  · rcases cascadeEvents_mem o _ h with ⟨u, hu⟩ | ⟨d, hd⟩
    · rw [hu]; rfl
    · rw [hd]; rfl
  · rcases mem_ddPost o _ h with h | h | ⟨s, h⟩ <;> rw [h]
    · decide
    · rfl
    · rfl

theorem tail_no_rmtree (o : DataOracle) (q : String) :
    Event.rmtree q ∉ (cascadeEvents o).1 ++ ddPost o := by
  intro h
  rcases List.mem_append.mp h with h | h
  · rcases cascadeEvents_mem o _ h with ⟨u, hu⟩ | ⟨d, hd⟩
    · simp at hu
    · simp at hd
  · rcases mem_ddPost o _ h with h0 | h0 | ⟨s, h0⟩ <;> simp at h0

theorem dirs_foldWrites (dest : String) (names : List String) :
    ∀ fs : FS,
      (names.foldl (fun a n => a.writeFile (dest ++ n) extractedFile)
        fs).dirs = fs.dirs := by
  induction names with
  | nil => intro fs; rfl
  | cons n rest ih =>
      intro fs
      rw [List.foldl_cons, ih]
      rfl

/-- Directory existence is preserved by any event list that contains no
`rmtree`. -/
theorem dirExists_mono_no_rmtree (evs : List Event) :
    ∀ (fs : FS) (d : String), (∀ q, Event.rmtree q ∉ evs) →
      fs.dirExists d = true → (fs.apply evs).dirExists d = true := by
  induction evs with
  | nil => intro fs d _ h; exact h
  | cons e rest ih =>
      intro fs d hq h
      apply ih _ _ (fun q hqr => hq q (List.mem_cons_of_mem _ hqr))
      cases e with
      | makedirs p =>
          simp only [FS.applyEvent]
          unfold FS.makedirs FS.dirExists
          rw [List.any_append]
          unfold FS.dirExists at h
          rw [h]
          rfl
      | rmtree p => exact absurd (List.mem_cons_self _ _) (hq p)
      | write p d0 => exact h
      | remove p => exact h
      | extractZip z dest =>
          simp only [FS.applyEvent]
          cases hv : fs.lookupFile z with
          | none => exact h
          | some d0 =>
              unfold FS.dirExists at h ⊢
              rw [dirs_foldWrites]
              exact h
      | netRequest u => exact h
      | msg s => exact h

/-- The state of the dataset directory after a full `download_datasets`
run is a function of the oracle alone: it equals the run from a freshly
created empty `./datasets/`. -/
theorem restrict_after_run (fs : FS) (o : DataOracle)
    (hr : o.rmtreeOk = true) (hm : o.makedirsOk = true)
    (htidy : fs.tidyUnder datasets_dir = true) :
    (fs.apply (download_datasets fs o).events).restrict datasets_dir =
    ((FS.mk [datasets_dir] []).apply
      ((cascadeEvents o).1 ++ ddPost o)).restrict datasets_dir := by
  rw [download_datasets_shape fs o hr hm]
  have hre : ddPre fs ++ [Event.makedirs datasets_dir] ++
      (cascadeEvents o).1 ++ ddPost o =
      (ddPre fs ++ [Event.makedirs datasets_dir]) ++
        ((cascadeEvents o).1 ++ ddPost o) := by
    simp [List.append_assoc]
  rw [hre, FS.apply_append]
  refine restrict_apply_congr datasets_dir _ _ _ (tail_zipUnder o) ?_
  rw [(reset_state fs htidy).2.2.2]
  decide

theorem dirExists_after_run (fs : FS) (o : DataOracle)
    (hr : o.rmtreeOk = true) (hm : o.makedirsOk = true)
    (htidy : fs.tidyUnder datasets_dir = true) :
    (fs.apply (download_datasets fs o).events).dirExists datasets_dir =
      true := by
  rw [download_datasets_shape fs o hr hm]
  have hre : ddPre fs ++ [Event.makedirs datasets_dir] ++
      (cascadeEvents o).1 ++ ddPost o =
      (ddPre fs ++ [Event.makedirs datasets_dir]) ++
        ((cascadeEvents o).1 ++ ddPost o) := by
    simp [List.append_assoc]
  rw [hre, FS.apply_append]
  exact dirExists_mono_no_rmtree _ _ _ (fun q => tail_no_rmtree o q)
    (reset_state fs htidy).2.2.1

/-! ## Claim C5 -/

/-- **C5**: every invocation of the dataset fetcher (whose reset phase hits
no filesystem error, on a realizable filesystem) begins by resetting the
dataset directory — deleting it recursively when it exists, then
recreating it — before any download attempt; right after the reset the
directory exists and holds nothing, so no stale content from prior runs
survives; and running the fetcher twice in a row with the same remote
outcomes leaves the dataset directory with the same final content. -/
theorem C5_reset_first_and_idempotent (fs : FS) (o : DataOracle)
    (hr : o.rmtreeOk = true) (hm : o.makedirsOk = true)
    (htidy : fs.tidyUnder datasets_dir = true) :
    (∃ rest, (download_datasets fs o).events =
      (if fs.dirExists datasets_dir then
        [Event.rmtree datasets_dir, Event.makedirs datasets_dir]
      else [Event.makedirs datasets_dir]) ++ rest) ∧
    ((fs.apply (ddPre fs ++ [Event.makedirs datasets_dir])).restrict
      datasets_dir = FS.mk [datasets_dir] []) ∧
    (((fs.apply (download_datasets fs o).events).apply
        (download_datasets (fs.apply (download_datasets fs o).events)
          o).events).restrict datasets_dir =
      (fs.apply (download_datasets fs o).events).restrict datasets_dir) := by
  have hex := dirExists_after_run fs o hr hm htidy
  have htidy1 : (fs.apply
      (download_datasets fs o).events).tidyUnder datasets_dir = true := by
    unfold FS.tidyUnder
    rw [hex]
    rfl
  refine ⟨?_, (reset_state fs htidy).2.2.2, ?_⟩
  · rw [download_datasets_shape fs o hr hm]
    refine ⟨(cascadeEvents o).1 ++ ddPost o, ?_⟩
    cases hd : fs.dirExists datasets_dir <;>
      simp [ddPre, hd, List.append_assoc]
  · rw [restrict_after_run (fs.apply (download_datasets fs o).events) o hr hm
      htidy1, restrict_after_run fs o hr hm htidy]

/-- Witness for C5: a fresh filesystem, Method 1 succeeding with a valid
archive. -/
theorem C5_reset_first_and_idempotent_witness :
    ((⟨true, true, ⟨true, ⟨true, ["Covid19/"], 9⟩, false⟩,
       ⟨false, ⟨false, [], 0⟩, false⟩,
       ⟨none, false, false, false, ⟨false, [], 0⟩, false⟩⟩ :
         DataOracle).rmtreeOk = true) ∧
    ((⟨true, true, ⟨true, ⟨true, ["Covid19/"], 9⟩, false⟩,
       ⟨false, ⟨false, [], 0⟩, false⟩,
       ⟨none, false, false, false, ⟨false, [], 0⟩, false⟩⟩ :
         DataOracle).makedirsOk = true) ∧
    ((⟨["./"], []⟩ : FS).tidyUnder datasets_dir = true) ∧
    ((∃ rest, (download_datasets ⟨["./"], []⟩
        ⟨true, true, ⟨true, ⟨true, ["Covid19/"], 9⟩, false⟩,
         ⟨false, ⟨false, [], 0⟩, false⟩,
         ⟨none, false, false, false, ⟨false, [], 0⟩, false⟩⟩).events =
      (if (⟨["./"], []⟩ : FS).dirExists datasets_dir then
        [Event.rmtree datasets_dir, Event.makedirs datasets_dir]
      else [Event.makedirs datasets_dir]) ++ rest) ∧
    (((⟨["./"], []⟩ : FS).apply
        (ddPre ⟨["./"], []⟩ ++ [Event.makedirs datasets_dir])).restrict
      datasets_dir = FS.mk [datasets_dir] []) ∧
    ((((⟨["./"], []⟩ : FS).apply (download_datasets ⟨["./"], []⟩
          ⟨true, true, ⟨true, ⟨true, ["Covid19/"], 9⟩, false⟩,
           ⟨false, ⟨false, [], 0⟩, false⟩,
           ⟨none, false, false, false, ⟨false, [], 0⟩, false⟩⟩).events).apply
        (download_datasets ((⟨["./"], []⟩ : FS).apply
            (download_datasets ⟨["./"], []⟩
              ⟨true, true, ⟨true, ⟨true, ["Covid19/"], 9⟩, false⟩,
               ⟨false, ⟨false, [], 0⟩, false⟩,
               ⟨none, false, false, false, ⟨false, [], 0⟩, false⟩⟩).events)
          ⟨true, true, ⟨true, ⟨true, ["Covid19/"], 9⟩, false⟩,
           ⟨false, ⟨false, [], 0⟩, false⟩,
           ⟨none, false, false, false, ⟨false, [], 0⟩,
             false⟩⟩).events).restrict datasets_dir =
      ((⟨["./"], []⟩ : FS).apply (download_datasets ⟨["./"], []⟩
          ⟨true, true, ⟨true, ⟨true, ["Covid19/"], 9⟩, false⟩,
           ⟨false, ⟨false, [], 0⟩, false⟩,
           ⟨none, false, false, false, ⟨false, [], 0⟩,
             false⟩⟩).events).restrict datasets_dir)) :=
  ⟨rfl, rfl, by decide,
    C5_reset_first_and_idempotent ⟨["./"], []⟩ _ rfl rfl (by decide)⟩

/-! ## Origin lemmas for claim C10 -/

theorem any_filter_mono {α : Type} (pr q : α → Bool) (l : List α)
    (h : (l.filter pr).any q = true) : l.any q = true := by
  rw [List.any_eq_true] at h ⊢
  rcases h with ⟨x, hx, hq⟩
  exact ⟨x, (List.mem_filter.mp hx).1, hq⟩

theorem fileExists_foldWrites_origin (dest : String) (names : List String) :
    ∀ (fs : FS) (p : String),
      (names.foldl (fun a n => a.writeFile (dest ++ n) extractedFile)
        fs).fileExists p = true →
      fs.fileExists p = true ∨ ∃ n ∈ names, p = dest ++ n := by
  induction names with
  | nil => intro fs p h; exact Or.inl h
  | cons n rest ih =>
      intro fs p h
      rw [List.foldl_cons] at h
      rcases ih _ _ h with h | ⟨n0, hn0, hp⟩
      · unfold FS.writeFile FS.fileExists at h
        rw [List.any_cons, Bool.or_eq_true] at h
        rcases h with h | h
        · simp only [decide_eq_true_eq] at h
          exact Or.inr ⟨n, List.mem_cons_self _ _, h.symm⟩
        · exact Or.inl (any_filter_mono _ _ _ h)
      · exact Or.inr ⟨n0, List.mem_cons_of_mem _ hn0, hp⟩

/-- A file present after one event was present before, or the event wrote
it, or the event extracted it under its destination. -/
theorem fileExists_applyEvent_origin (fs : FS) (e : Event) (p : String)
    (h : (fs.applyEvent e).fileExists p = true) :
    fs.fileExists p = true ∨ (∃ d, e = Event.write p d) ∨
      ∃ z dest, e = Event.extractZip z dest ∧ strPrefix dest p = true := by
  cases e with
  | makedirs q => exact Or.inl h
  | rmtree q => exact Or.inl (any_filter_mono _ _ _ h)
  | write q d =>
      simp only [FS.applyEvent] at h
      unfold FS.writeFile FS.fileExists at h
      rw [List.any_cons, Bool.or_eq_true] at h
      rcases h with h | h
      · simp only [decide_eq_true_eq] at h
        exact Or.inr (Or.inl ⟨d, by rw [h]⟩)
      · exact Or.inl (any_filter_mono _ _ _ h)
  | remove q => exact Or.inl (any_filter_mono _ _ _ h)
  | extractZip z dest =>
      simp only [FS.applyEvent] at h
      cases hv : fs.lookupFile z with
      | none => rw [hv] at h; exact Or.inl h
      | some d0 =>
          rw [hv] at h
          rcases fileExists_foldWrites_origin dest d0.zipEntries fs p h with
            h | ⟨n, hn, hp⟩
          · exact Or.inl h
          · refine Or.inr (Or.inr ⟨z, dest, rfl, ?_⟩)
            rw [hp]
            exact strPrefix_append _ _
  | netRequest u => exact Or.inl h
  | msg s => exact Or.inl h

theorem fileExists_apply_origin (evs : List Event) :
    ∀ (fs : FS) (p : String), (fs.apply evs).fileExists p = true →
      fs.fileExists p = true ∨ (∃ d, Event.write p d ∈ evs) ∨
        ∃ z dest, Event.extractZip z dest ∈ evs ∧ strPrefix dest p = true := by
  induction evs with
  | nil => intro fs p h; exact Or.inl h
  | cons e rest ih =>
      intro fs p h
      rcases ih _ _ h with h | ⟨d, hd⟩ | ⟨z, dest, hz, hp⟩
      · rcases fileExists_applyEvent_origin fs e p h with
          h | ⟨d, hd⟩ | ⟨z, dest, hz, hp⟩
        · exact Or.inl h
        · exact Or.inr (Or.inl ⟨d, by rw [← hd]; exact List.mem_cons_self _ _⟩)
        · exact Or.inr (Or.inr
            ⟨z, dest, by rw [← hz]; exact List.mem_cons_self _ _, hp⟩)
      · exact Or.inr (Or.inl ⟨d, List.mem_cons_of_mem _ hd⟩)
      · exact Or.inr (Or.inr ⟨z, dest, List.mem_cons_of_mem _ hz, hp⟩)

/-- A directory present after one event was present before or was created
by a `makedirs`. -/
theorem dirExists_applyEvent_origin (fs : FS) (e : Event) (d : String)
    (h : (fs.applyEvent e).dirExists d = true) :
    fs.dirExists d = true ∨
      ∃ p0, e = Event.makedirs p0 ∧ d ∈ dirAncestors p0 := by
  cases e with
  | makedirs p =>
      simp only [FS.applyEvent] at h
      unfold FS.makedirs FS.dirExists at h
      rw [List.any_append, Bool.or_eq_true] at h
      rcases h with h | h
      · exact Or.inl h
      · rw [List.any_eq_true] at h
        rcases h with ⟨x, hx, hxd⟩
        simp only [decide_eq_true_eq] at hxd
        subst hxd
        exact Or.inr ⟨p, rfl, hx⟩
  | rmtree p => exact Or.inl (any_filter_mono _ _ _ h)
  | write p d0 => exact Or.inl h
  | remove p => exact Or.inl h
  | extractZip z dest =>
      simp only [FS.applyEvent] at h
      cases hv : fs.lookupFile z with
      | none => rw [hv] at h; exact Or.inl h
      | some d0 =>
          rw [hv] at h
          unfold FS.dirExists at h ⊢
          rw [dirs_foldWrites] at h
          exact Or.inl h
  | netRequest u => exact Or.inl h
  | msg s => exact Or.inl h

theorem dirExists_apply_origin (evs : List Event) :
    ∀ (fs : FS) (d : String), (fs.apply evs).dirExists d = true →
      fs.dirExists d = true ∨
        ∃ p0, Event.makedirs p0 ∈ evs ∧ d ∈ dirAncestors p0 := by
  induction evs with
  | nil => intro fs d h; exact Or.inl h
  | cons e rest ih =>
      intro fs d h
      rcases ih _ _ h with h | ⟨p0, hp0, hanc⟩
      · rcases dirExists_applyEvent_origin fs e d h with h | ⟨p0, hp0, hanc⟩
        · exact Or.inl h
        · exact Or.inr ⟨p0, by rw [← hp0]; exact List.mem_cons_self _ _, hanc⟩
      · exact Or.inr ⟨p0, List.mem_cons_of_mem _ hp0, hanc⟩

/-! ## Claim C10 -/

/-- **C10**: the dataset fetcher is not atomic on failure.  When all three
transport methods fail (and the reset itself hits no filesystem error, on
a realizable filesystem), none of the files or subdirectories that were in
the dataset directory before the call remain after it: the only file that
may exist under `./datasets/` afterwards is the (partially written)
archive `./datasets/datasets.zip`, and the only directory is
`./datasets/` itself. -/
theorem C10_destructive_reset (fs : FS) (o : DataOracle)
    (hr : o.rmtreeOk = true) (hm : o.makedirsOk = true)
    (htidy : fs.tidyUnder datasets_dir = true)
    (h1 : o.m1.ok = false) (h2 : o.m2.ok = false)
    (h3 : stageCOk o.m3 = false) :
    (∀ p, strPrefix datasets_dir p = true →
      (fs.apply (download_datasets fs o).events).fileExists p = true →
      p = zip_path) ∧
    (∀ d, strPrefix datasets_dir d = true →
      (fs.apply (download_datasets fs o).events).dirExists d = true →
      d = datasets_dir) := by
  have hco : cascadeOk o = false := by
    unfold cascadeOk
    rw [h1, h2, h3]
    rfl
  rw [download_datasets_shape fs o hr hm]
  have hre : ddPre fs ++ [Event.makedirs datasets_dir] ++
      (cascadeEvents o).1 ++ ddPost o =
      (ddPre fs ++ [Event.makedirs datasets_dir]) ++
        ((cascadeEvents o).1 ++ ddPost o) := by
    simp [List.append_assoc]
  rw [hre, FS.apply_append]
  constructor
  · intro p hp hex
    rcases fileExists_apply_origin _ _ _ hex with h | ⟨d, hd⟩ |
      ⟨z, dest, hz, hpd⟩
    · rw [(reset_state fs htidy).1 p hp] at h
      exact absurd h (by simp)
    · rcases List.mem_append.mp hd with hd | hd
      · exact cascadeEvents_write o p d hd
      · exfalso
        simp [ddPost, hco] at hd
    · exfalso
      rcases List.mem_append.mp hz with hz | hz
      · rcases cascadeEvents_mem o _ hz with ⟨u, hu⟩ | ⟨dw, hw⟩
        · simp at hu
        · simp at hw
      · simp [ddPost, hco] at hz
  · intro d hdp hex
    rcases dirExists_apply_origin _ _ _ hex with h | ⟨p0, hp0, hanc⟩
    · exact (reset_state fs htidy).2.1 d hdp h
    · exfalso
      rcases List.mem_append.mp hp0 with hz | hz
      · rcases cascadeEvents_mem o _ hz with ⟨u, hu⟩ | ⟨dw, hw⟩
        · simp at hu
        · simp at hw
      · simp [ddPost, hco] at hz

/-- Witness for C10: pre-existing content under `./datasets/` and an
oracle on which every method fails (Method 3 with a non-200 status). -/
theorem C10_destructive_reset_witness :
    ((⟨true, true, ⟨false, ⟨false, [], 0⟩, false⟩,
       ⟨false, ⟨false, [], 0⟩, false⟩,
       ⟨none, true, false, false, ⟨false, [], 0⟩, false⟩⟩ :
         DataOracle).rmtreeOk = true) ∧
    ((⟨true, true, ⟨false, ⟨false, [], 0⟩, false⟩,
       ⟨false, ⟨false, [], 0⟩, false⟩,
       ⟨none, true, false, false, ⟨false, [], 0⟩, false⟩⟩ :
         DataOracle).makedirsOk = true) ∧
    ((⟨["./", "./datasets/"],
       [("./datasets/old.txt", ⟨false, [], 5⟩)]⟩ : FS).tidyUnder
      datasets_dir = true) ∧
    ((⟨true, true, ⟨false, ⟨false, [], 0⟩, false⟩,
       ⟨false, ⟨false, [], 0⟩, false⟩,
       ⟨none, true, false, false, ⟨false, [], 0⟩, false⟩⟩ :
         DataOracle).m1.ok = false) ∧
    ((⟨true, true, ⟨false, ⟨false, [], 0⟩, false⟩,
       ⟨false, ⟨false, [], 0⟩, false⟩,
       ⟨none, true, false, false, ⟨false, [], 0⟩, false⟩⟩ :
         DataOracle).m2.ok = false) ∧
    (stageCOk (⟨none, true, false, false, ⟨false, [], 0⟩, false⟩ :
      StageCOutcome) = false) ∧
    ((∀ p, strPrefix datasets_dir p = true →
      ((⟨["./", "./datasets/"],
        [("./datasets/old.txt", ⟨false, [], 5⟩)]⟩ : FS).apply
        (download_datasets
          ⟨["./", "./datasets/"], [("./datasets/old.txt", ⟨false, [], 5⟩)]⟩
          ⟨true, true, ⟨false, ⟨false, [], 0⟩, false⟩,
           ⟨false, ⟨false, [], 0⟩, false⟩,
           ⟨none, true, false, false, ⟨false, [], 0⟩,
             false⟩⟩).events).fileExists p = true →
      p = zip_path) ∧
    (∀ d, strPrefix datasets_dir d = true →
      ((⟨["./", "./datasets/"],
        [("./datasets/old.txt", ⟨false, [], 5⟩)]⟩ : FS).apply
        (download_datasets
          ⟨["./", "./datasets/"], [("./datasets/old.txt", ⟨false, [], 5⟩)]⟩
          ⟨true, true, ⟨false, ⟨false, [], 0⟩, false⟩,
           ⟨false, ⟨false, [], 0⟩, false⟩,
           ⟨none, true, false, false, ⟨false, [], 0⟩,
             false⟩⟩).events).dirExists d = true →
      d = datasets_dir)) :=
  ⟨rfl, rfl, by decide, rfl, rfl, rfl,
    C10_destructive_reset
      ⟨["./", "./datasets/"], [("./datasets/old.txt", ⟨false, [], 5⟩)]⟩
      _ rfl rfl (by decide) rfl rfl rfl⟩

/-! ## Claim C8 -/

/-- **C8**: when a file already exists at `./nets/ViT-B-32.pt`, whatever
its contents, the auxiliary fetcher only reports it and returns: no
network request is issued. -/
theorem C8_vit_skip_when_exists (fs : FS) (o : VitOracle)
    (h : fs.fileExists vit_output_path = true) :
    download_vit_model fs o =
      { events := [Event.msg "ViT-B-32.pt already exists"],
        raised := none } ∧
    ∀ u, Event.netRequest u ∉ (download_vit_model fs o).events := by
  constructor
  · simp [download_vit_model, h]
  · intro u
    simp [download_vit_model, h]

/-- Witness for C8: a zero-sized garbage file at the target path. -/
theorem C8_vit_skip_when_exists_witness :
    ((⟨["./", "./nets/"], [("./nets/ViT-B-32.pt", ⟨false, [], 0⟩)]⟩ :
      FS).fileExists vit_output_path = true) ∧
    ((download_vit_model
        ⟨["./", "./nets/"], [("./nets/ViT-B-32.pt", ⟨false, [], 0⟩)]⟩
        ⟨true, ⟨false, [], 3⟩⟩ =
      { events := [Event.msg "ViT-B-32.pt already exists"],
        raised := none }) ∧
    ∀ u, Event.netRequest u ∉
      (download_vit_model
        ⟨["./", "./nets/"], [("./nets/ViT-B-32.pt", ⟨false, [], 0⟩)]⟩
        ⟨true, ⟨false, [], 3⟩⟩).events) :=
  ⟨by decide,
    C8_vit_skip_when_exists
      ⟨["./", "./nets/"], [("./nets/ViT-B-32.pt", ⟨false, [], 0⟩)]⟩
      ⟨true, ⟨false, [], 3⟩⟩ (by decide)⟩

/-! ## Claim C9 -/

/-- **C9**: the model fetcher targets
`./{task_name}/{model_type}/{test_session}/models/best_model-{model_type}.pth.tar`;
its first action is `makedirs` of the models directory, which makes every
intermediate directory exist, and every file it writes is exactly that
target (when `makedirs` itself does not fail). -/
theorem C9_model_target_path (fs : FS) (o : ModelOracle)
    (ts mt fid tn : String) (hmk : o.makedirsOk = true) :
    (∃ rest, (download_model fs o ts mt fid tn).events =
      Event.makedirs
        ("./" ++ tn ++ "/" ++ mt ++ "/" ++ ts ++ "/models/") :: rest) ∧
    (∀ d0, d0 ∈ dirAncestors
        ("./" ++ tn ++ "/" ++ mt ++ "/" ++ ts ++ "/models/") →
      (fs.makedirs
        ("./" ++ tn ++ "/" ++ mt ++ "/" ++ ts ++ "/models/")).dirExists d0 =
        true) ∧
    (∀ p d, Event.write p d ∈ (download_model fs o ts mt fid tn).events →
      p = "./" ++ tn ++ "/" ++ mt ++ "/" ++ ts ++ "/models/" ++
        "best_model-" ++ mt ++ ".pth.tar" ∧ d = o.payload) := by
  have hev : (download_model fs o ts mt fid tn).events =
      Event.makedirs ("./" ++ tn ++ "/" ++ mt ++ "/" ++ ts ++ "/models/") ::
      Event.netRequest ("https://drive.google.com/uc?id=" ++ fid) ::
      (if o.gdownOk then
        [Event.write ("./" ++ tn ++ "/" ++ mt ++ "/" ++ ts ++ "/models/" ++
          "best_model-" ++ mt ++ ".pth.tar") o.payload]
      else [Event.msg "Error downloading model"]) := by
    unfold download_model
    cases hg : o.gdownOk <;> simp [hmk, hg]
  refine ⟨⟨_, hev⟩, ?_, ?_⟩
  · intro d0 hd0
    unfold FS.makedirs FS.dirExists
    rw [List.any_append, Bool.or_eq_true]
    right
    rw [List.any_eq_true]
    exact ⟨d0, hd0, by simp⟩
  · intro p d hmem
    rw [hev] at hmem
    rcases List.mem_cons.mp hmem with h | hmem
    · simp at h
    · rcases List.mem_cons.mp hmem with h | hmem
      · simp at h
      · cases hg : o.gdownOk with
        | true =>
            rw [hg] at hmem
            simp only [if_true] at hmem
            rw [List.mem_singleton] at hmem
            simp only [Event.write.injEq] at hmem
            exact hmem
        | false =>
            rw [hg] at hmem
            simp at hmem

/-- Witness for C9 at the spec's concrete example, also checking that the
computed target is the literal path the spec names. -/
theorem C9_model_target_path_witness :
    ((⟨true, true, ⟨false, [], 7⟩⟩ : ModelOracle).makedirsOk = true) ∧
    ("./" ++ "Covid19" ++ "/" ++ "RecLMIS" ++ "/" ++ "session_09.25_00h27" ++
      "/models/" ++ "best_model-" ++ "RecLMIS" ++ ".pth.tar" =
      "./Covid19/RecLMIS/session_09.25_00h27/models/best_model-RecLMIS.pth.tar") ∧
    ((∃ rest, (download_model ⟨["./"], []⟩ ⟨true, true, ⟨false, [], 7⟩⟩
        "session_09.25_00h27" "RecLMIS" "someid" "Covid19").events =
      Event.makedirs ("./" ++ "Covid19" ++ "/" ++ "RecLMIS" ++ "/" ++
        "session_09.25_00h27" ++ "/models/") :: rest) ∧
    (∀ d0, d0 ∈ dirAncestors ("./" ++ "Covid19" ++ "/" ++ "RecLMIS" ++ "/" ++
        "session_09.25_00h27" ++ "/models/") →
      ((⟨["./"], []⟩ : FS).makedirs ("./" ++ "Covid19" ++ "/" ++ "RecLMIS" ++
        "/" ++ "session_09.25_00h27" ++ "/models/")).dirExists d0 = true) ∧
    (∀ p d, Event.write p d ∈ (download_model ⟨["./"], []⟩
        ⟨true, true, ⟨false, [], 7⟩⟩
        "session_09.25_00h27" "RecLMIS" "someid" "Covid19").events →
      p = "./" ++ "Covid19" ++ "/" ++ "RecLMIS" ++ "/" ++
        "session_09.25_00h27" ++ "/models/" ++ "best_model-" ++ "RecLMIS" ++
        ".pth.tar" ∧ d = (⟨true, true, ⟨false, [], 7⟩⟩ :
          ModelOracle).payload)) :=
  ⟨rfl, by decide,
    C9_model_target_path ⟨["./"], []⟩ ⟨true, true, ⟨false, [], 7⟩⟩
      "session_09.25_00h27" "RecLMIS" "someid" "Covid19" rfl⟩

/-! ## Claim C6 -/

theorem strPrefix_append3 (a b c d : String) :
    strPrefix a (a ++ b ++ c ++ d) = true := by
  simp only [strPrefix, String.data_append]
  rw [List.isPrefixOf_iff_prefix, List.append_assoc, List.append_assoc]
  exact List.prefix_append _ _

/-- A trace whose every write lands under one of the already-created
directories is covered; `makedirs` events only grow that set. -/
theorem writesCovered_of_all (evs : List Event) :
    ∀ made : List String,
      (∀ p d, Event.write p d ∈ evs →
        made.any (fun m => strPrefix m p) = true) →
      writesCovered made evs = true := by
  induction evs with
  | nil => intro made _; rfl
  | cons e rest ih =>
      intro made h
      cases e with
      | makedirs q =>
          simp only [writesCovered]
          apply ih
          intro p d hm
          rw [List.any_cons, Bool.or_eq_true]
          exact Or.inr (h p d (List.mem_cons_of_mem _ hm))
      | write q d0 =>
          simp only [writesCovered]
          rw [h q d0 (List.mem_cons_self _ _), Bool.true_and]
          exact ih made (fun p d hm => h p d (List.mem_cons_of_mem _ hm))
      | rmtree q =>
          simp only [writesCovered]
          exact ih made (fun p d hm => h p d (List.mem_cons_of_mem _ hm))
      | remove q =>
          simp only [writesCovered]
          exact ih made (fun p d hm => h p d (List.mem_cons_of_mem _ hm))
      | extractZip z dest =>
          simp only [writesCovered]
          exact ih made (fun p d hm => h p d (List.mem_cons_of_mem _ hm))
      | netRequest u =>
          simp only [writesCovered]
          exact ih made (fun p d hm => h p d (List.mem_cons_of_mem _ hm))
      | msg s =>
          simp only [writesCovered]
          exact ih made (fun p d hm => h p d (List.mem_cons_of_mem _ hm))

/-- Counterexample to **C6** as stated: on a filesystem where `./nets/`
exists but the checkpoint is absent, the auxiliary fetcher performs a
write with no `makedirs` anywhere in its trace — "the target's directory
is created before any write" fails for this fetcher (the source comments
"Use existing nets directory" and creates nothing). -/
theorem C6_counterexample :
    (∃ d, Event.write vit_output_path d ∈
      (download_vit_model ⟨["./", "./nets/"], []⟩
        ⟨true, ⟨false, [], 5⟩⟩).events) ∧
    writesCovered []
      (download_vit_model ⟨["./", "./nets/"], []⟩
        ⟨true, ⟨false, [], 5⟩⟩).events = false :=
  ⟨⟨⟨false, [], 5⟩, by decide⟩, by decide⟩

/-- **C6 (amended)**: the model fetcher and the dataset fetcher create the
target directory (with all parents) before any write; the auxiliary
fetcher does not — it performs no directory creation and relies on
`./nets/` already existing. -/
theorem C6_amended_dirs_created_before_writes :
    (∀ (fs : FS) (o : ModelOracle) (ts mt fid tn : String),
      writesCovered [] (download_model fs o ts mt fid tn).events = true) ∧
    (∀ (fs : FS) (o : DataOracle), o.rmtreeOk = true → o.makedirsOk = true →
      writesCovered [] (download_datasets fs o).events = true) := by
  constructor
  · intro fs o ts mt fid tn
    unfold download_model
    cases hmk : o.makedirsOk with
    | false => simp [hmk, writesCovered]
    | true =>
        cases hg : o.gdownOk with
        | true =>
            simp only [hmk, hg, Bool.not_true, Bool.false_eq_true, if_false,
              if_true, not_true_eq_false]
            simp [writesCovered, strPrefix_append3]
        | false =>
            simp [hmk, hg, writesCovered]
  · intro fs o hr hm
    rw [download_datasets_shape fs o hr hm]
    have hcov : writesCovered [datasets_dir]
        ((cascadeEvents o).1 ++ ddPost o) = true := by
      apply writesCovered_of_all
      intro p d hmem
      rcases List.mem_append.mp hmem with h | h
      · rw [cascadeEvents_write o p d h]
        decide
      · rcases mem_ddPost o _ h with h | h | ⟨s, h⟩ <;> simp at h
    cases hd : fs.dirExists datasets_dir with
    | true =>
        simp only [ddPre, hd, if_true, List.cons_append, List.nil_append,
          List.append_assoc, List.singleton_append]
        simp only [writesCovered]
        exact hcov
    | false =>
        simp only [ddPre, hd, Bool.false_eq_true, if_false,
          List.nil_append, List.append_assoc, List.singleton_append]
        simp only [writesCovered]
        exact hcov

/-- Witness for the amended C6 at concrete inputs. -/
theorem C6_amended_dirs_created_before_writes_witness :
    (writesCovered [] (download_model ⟨["./"], []⟩
      ⟨true, true, ⟨false, [], 7⟩⟩ "s1" "M1" "fid1" "Task1").events =
      true) ∧
    (writesCovered [] (download_datasets ⟨["./"], []⟩
      ⟨true, true, ⟨true, ⟨true, ["Covid19/"], 9⟩, false⟩,
       ⟨false, ⟨false, [], 0⟩, false⟩,
       ⟨none, false, false, false, ⟨false, [], 0⟩, false⟩⟩).events =
      true) :=
  ⟨C6_amended_dirs_created_before_writes.1 ⟨["./"], []⟩
    ⟨true, true, ⟨false, [], 7⟩⟩ "s1" "M1" "fid1" "Task1",
   C6_amended_dirs_created_before_writes.2 ⟨["./"], []⟩
    ⟨true, true, ⟨true, ⟨true, ["Covid19/"], 9⟩, false⟩,
     ⟨false, ⟨false, [], 0⟩, false⟩,
     ⟨none, false, false, false, ⟨false, [], 0⟩, false⟩⟩ rfl rfl⟩

/-! ## Claims C1, C2, C7 (dispatcher) -/

theorem download_model_raised (fs : FS) (o : ModelOracle)
    (ts mt fid tn : String) (hmk : o.makedirsOk = true) :
    (download_model fs o ts mt fid tn).raised = none := by
  unfold download_model
  cases hg : o.gdownOk <;> simp [hmk, hg]

theorem download_vit_raised (fs : FS) (o : VitOracle) :
    (download_vit_model fs o).raised = none := by
  unfold download_vit_model
  split
  · rfl
  · split <;> rfl

theorem seqRun_raised (fs : FS) (r : Run) (k : FS → Run)
    (h : r.raised = none) :
    (seqRun fs r k).raised = (k (fs.apply r.events)).raised := by
  unfold seqRun
  rw [h]

/-- Every write `download_model` performs goes to the session/model-typed
target path. -/
theorem download_model_write_mem (fs : FS) (o : ModelOracle)
    (ts mt fid tn : String) (p : String) (d : FileData)
    (h : Event.write p d ∈ (download_model fs o ts mt fid tn).events) :
    p = "./" ++ tn ++ "/" ++ mt ++ "/" ++ ts ++ "/models/" ++
      "best_model-" ++ mt ++ ".pth.tar" := by
  unfold download_model at h
  cases hmk : o.makedirsOk with
  | false => simp [hmk] at h
  | true =>
      cases hg : o.gdownOk with
      | true =>
          simp [hmk, hg] at h
          exact h.1
      | false => simp [hmk, hg] at h

/-- **C1** (the claim states the intended default; the code has a bug):
with no action flag selected, the dispatcher's default branch calls
`download_covid19_model(args.test_session, args.model_type)` — a name
defined nowhere in the script — so the run raises an uncaught `NameError`
instead of fetching the model and the dataset; no network request is ever
issued. -/
theorem C1_default_branch_raises (fs : FS) (a : Args) (cfg : Configs)
    (o : WorldOracle) (h1 : a.download_all = false)
    (h2 : a.download_model = false) (h3 : a.download_datasets = false)
    (h4 : a.download_datasets_manual = false)
    (h5 : a.download_vit = false) :
    (dispatch fs a cfg o).raised =
      some "NameError: name download_covid19_model is not defined" ∧
    ∀ u, Event.netRequest u ∉ (dispatch fs a cfg o).events := by
  unfold dispatch
  simp [h1, h2, h3, h4, h5]

/-- Witness for C1: the script invoked with no flags at all. -/
theorem C1_default_branch_raises_witness :
    ((⟨"session_09.25_00h27", "RecLMIS", false, false, false, false,
        false⟩ : Args).download_all = false) ∧
    ((dispatch ⟨["./"], []⟩
        ⟨"session_09.25_00h27", "RecLMIS", false, false, false, false, false⟩
        ⟨"cfid", "Covid19", "mfid", "MosMedPlus"⟩
        ⟨⟨true, true, ⟨false, [], 0⟩⟩, ⟨true, true, ⟨false, [], 0⟩⟩,
         ⟨true, true, ⟨false, ⟨false, [], 0⟩, false⟩,
          ⟨false, ⟨false, [], 0⟩, false⟩,
          ⟨none, false, false, false, ⟨false, [], 0⟩, false⟩⟩,
         ⟨true, ⟨false, [], 0⟩⟩⟩).raised =
      some "NameError: name download_covid19_model is not defined" ∧
    ∀ u, Event.netRequest u ∉ (dispatch ⟨["./"], []⟩
        ⟨"session_09.25_00h27", "RecLMIS", false, false, false, false, false⟩
        ⟨"cfid", "Covid19", "mfid", "MosMedPlus"⟩
        ⟨⟨true, true, ⟨false, [], 0⟩⟩, ⟨true, true, ⟨false, [], 0⟩⟩,
         ⟨true, true, ⟨false, ⟨false, [], 0⟩, false⟩,
          ⟨false, ⟨false, [], 0⟩, false⟩,
          ⟨none, false, false, false, ⟨false, [], 0⟩, false⟩⟩,
         ⟨true, ⟨false, [], 0⟩⟩⟩).events) :=
  ⟨rfl, C1_default_branch_raises ⟨["./"], []⟩ _ _ _ rfl rfl rfl rfl rfl⟩

/-- Counterexample to **C2** as stated: under `--download_model`, a
filesystem failure of the model fetcher's `os.makedirs` — which sits
outside its `try` block — escapes the fetcher and reaches the dispatcher:
the run does not terminate normally. -/
theorem C2_counterexample :
    (dispatch ⟨["./"], []⟩
      ⟨"session_09.25_00h27", "RecLMIS", true, false, false, false, false⟩
      ⟨"cfid", "Covid19", "mfid", "MosMedPlus"⟩
      ⟨⟨false, true, ⟨false, [], 0⟩⟩, ⟨true, true, ⟨false, [], 0⟩⟩,
       ⟨true, true, ⟨false, ⟨false, [], 0⟩, false⟩,
        ⟨false, ⟨false, [], 0⟩, false⟩,
        ⟨none, false, false, false, ⟨false, [], 0⟩, false⟩⟩,
       ⟨true, ⟨false, [], 0⟩⟩⟩).raised ≠ none := by decide

/-- **C2 (amended)**: when an action flag is selected and the unguarded
directory-setup operations succeed (the `os.makedirs` of both model
fetches, and the `shutil.rmtree`/`os.makedirs` reset of the dataset
fetcher), no failure is re-raised to the dispatcher, whatever the
transport outcomes: every transport failure is caught inside its fetcher
and only reported to the console.  The unguarded setup operations (see
the counterexample) and the no-flag default branch (claim C1) are the
exceptions that falsify the claim as stated. -/
theorem C2_amended_no_reraise (fs : FS) (a : Args) (cfg : Configs)
    (o : WorldOracle)
    (hflag : a.download_all = true ∨ a.download_model = true ∨
      a.download_datasets = true ∨ a.download_datasets_manual = true ∨
      a.download_vit = true)
    (hm1 : o.model1.makedirsOk = true) (hm2 : o.model2.makedirsOk = true)
    (hdr : o.dataset.rmtreeOk = true) (hdm : o.dataset.makedirsOk = true) :
    (dispatch fs a cfg o).raised = none := by
  unfold dispatch
  cases hall : a.download_all with
  | true =>
      simp only [hall, if_true]
      rw [seqRun_raised _ _ _ (download_model_raised _ _ _ _ _ _ hm1)]
      rw [seqRun_raised _ _ _ (download_model_raised _ _ _ _ _ _ hm2)]
      rw [seqRun_raised _ _ _
        (by rw [download_datasets_shape _ _ hdr hdm] :
          (download_datasets _ o.dataset).raised = none)]
      exact download_vit_raised _ _
  | false =>
      simp only [hall, Bool.false_eq_true, if_false]
      cases hdmf : a.download_model with
      | true =>
          simp only [hdmf, if_true]
          rw [seqRun_raised _ _ _ (download_model_raised _ _ _ _ _ _ hm1)]
          exact download_model_raised _ _ _ _ _ _ hm2
      | false =>
          simp only [hdmf, Bool.false_eq_true, if_false]
          cases hds : a.download_datasets with
          | true =>
              simp only [hds, if_true]
              rw [download_datasets_shape _ _ hdr hdm]
          | false =>
              simp only [hds, Bool.false_eq_true, if_false]
              cases hman : a.download_datasets_manual with
              | true => simp only [hman, if_true]
              | false =>
                  simp only [hman, Bool.false_eq_true, if_false]
                  cases hv : a.download_vit with
                  | true =>
                      simp only [hv, if_true]
                      exact download_vit_raised _ _
                  | false =>
                      rcases hflag with h | h | h | h | h <;> simp_all

/-- Witness for the amended C2: `--download_datasets` with every transport
method failing still raises nothing. -/
theorem C2_amended_no_reraise_witness :
    ((⟨"session_09.25_00h27", "RecLMIS", false, true, false, false,
        false⟩ : Args).download_all = true ∨
     (⟨"session_09.25_00h27", "RecLMIS", false, true, false, false,
        false⟩ : Args).download_model = true ∨
     (⟨"session_09.25_00h27", "RecLMIS", false, true, false, false,
        false⟩ : Args).download_datasets = true ∨
     (⟨"session_09.25_00h27", "RecLMIS", false, true, false, false,
        false⟩ : Args).download_datasets_manual = true ∨
     (⟨"session_09.25_00h27", "RecLMIS", false, true, false, false,
        false⟩ : Args).download_vit = true) ∧
    (dispatch ⟨["./"], []⟩
      ⟨"session_09.25_00h27", "RecLMIS", false, true, false, false, false⟩
      ⟨"cfid", "Covid19", "mfid", "MosMedPlus"⟩
      ⟨⟨true, true, ⟨false, [], 0⟩⟩, ⟨true, true, ⟨false, [], 0⟩⟩,
       ⟨true, true, ⟨false, ⟨false, [], 0⟩, false⟩,
        ⟨false, ⟨false, [], 0⟩, false⟩,
        ⟨none, true, false, false, ⟨false, [], 0⟩, false⟩⟩,
       ⟨true, ⟨false, [], 0⟩⟩⟩).raised = none :=
  ⟨Or.inr (Or.inr (Or.inl rfl)),
    C2_amended_no_reraise ⟨["./"], []⟩ _ _ _
      (Or.inr (Or.inr (Or.inl rfl))) rfl rfl rfl rfl⟩

/-- **C7** (the claim matches the declared flags and the spec; the code
ignores the flags): in the `--download_model` branch the dispatcher calls
`download_model` with only the `file_id=` and `task_name=` keywords, so
the `--test_session`/`--model_type` override values are never forwarded:
the whole run is unchanged whatever those two flags carry, and every
write goes to a path built from the Python defaults
`session_09.25_00h27` and `RecLMIS`. -/
theorem C7_value_flags_ignored (fs : FS) (a : Args) (cfg : Configs)
    (o : WorldOracle) (h1 : a.download_all = false)
    (h2 : a.download_model = true) :
    (∀ s m, dispatch fs { a with test_session := s, model_type := m } cfg o =
      dispatch fs a cfg o) ∧
    (∀ p d, Event.write p d ∈ (dispatch fs a cfg o).events →
      p = "./" ++ cfg.covid_task_name ++ "/" ++ "RecLMIS" ++ "/" ++
          "session_09.25_00h27" ++ "/models/" ++ "best_model-" ++
          "RecLMIS" ++ ".pth.tar" ∨
      p = "./" ++ cfg.mos_task_name ++ "/" ++ "RecLMIS" ++ "/" ++
          "session_09.25_00h27" ++ "/models/" ++ "best_model-" ++
          "RecLMIS" ++ ".pth.tar") := by
  constructor
  · intro s m
    rfl
  · intro p d hmem
    unfold dispatch at hmem
    simp only [h1, Bool.false_eq_true, if_false, h2, if_true] at hmem
    unfold seqRun at hmem
    cases hr1 : (download_model fs o.model1 "session_09.25_00h27" "RecLMIS"
        cfg.covid_file_id cfg.covid_task_name).raised with
    | some e =>
        rw [hr1] at hmem
        exact Or.inl (download_model_write_mem _ _ _ _ _ _ _ _ hmem)
    | none =>
        rw [hr1] at hmem
        rcases List.mem_append.mp hmem with h | h
        · exact Or.inl (download_model_write_mem _ _ _ _ _ _ _ _ h)
        · exact Or.inr (download_model_write_mem _ _ _ _ _ _ _ _ h)

/-- Witness for C7: `--download_model -t mysession -m MyModel` — the
overrides are carried by the parsed arguments yet the run ignores them. -/
theorem C7_value_flags_ignored_witness :
    ((⟨"mysession", "MyModel", true, false, false, false, false⟩ :
      Args).download_all = false) ∧
    ((∀ s m, dispatch ⟨["./"], []⟩
        { (⟨"mysession", "MyModel", true, false, false, false, false⟩ :
            Args) with test_session := s, model_type := m }
        ⟨"cfid", "Covid19", "mfid", "MosMedPlus"⟩
        ⟨⟨true, true, ⟨false, [], 7⟩⟩, ⟨true, true, ⟨false, [], 8⟩⟩,
         ⟨true, true, ⟨false, ⟨false, [], 0⟩, false⟩,
          ⟨false, ⟨false, [], 0⟩, false⟩,
          ⟨none, false, false, false, ⟨false, [], 0⟩, false⟩⟩,
         ⟨true, ⟨false, [], 0⟩⟩⟩ =
      dispatch ⟨["./"], []⟩
        ⟨"mysession", "MyModel", true, false, false, false, false⟩
        ⟨"cfid", "Covid19", "mfid", "MosMedPlus"⟩
        ⟨⟨true, true, ⟨false, [], 7⟩⟩, ⟨true, true, ⟨false, [], 8⟩⟩,
         ⟨true, true, ⟨false, ⟨false, [], 0⟩, false⟩,
          ⟨false, ⟨false, [], 0⟩, false⟩,
          ⟨none, false, false, false, ⟨false, [], 0⟩, false⟩⟩,
         ⟨true, ⟨false, [], 0⟩⟩⟩) ∧
    (∀ p d, Event.write p d ∈ (dispatch ⟨["./"], []⟩
        ⟨"mysession", "MyModel", true, false, false, false, false⟩
        ⟨"cfid", "Covid19", "mfid", "MosMedPlus"⟩
        ⟨⟨true, true, ⟨false, [], 7⟩⟩, ⟨true, true, ⟨false, [], 8⟩⟩,
         ⟨true, true, ⟨false, ⟨false, [], 0⟩, false⟩,
          ⟨false, ⟨false, [], 0⟩, false⟩,
          ⟨none, false, false, false, ⟨false, [], 0⟩, false⟩⟩,
         ⟨true, ⟨false, [], 0⟩⟩⟩).events →
      p = "./" ++ "Covid19" ++ "/" ++ "RecLMIS" ++ "/" ++
          "session_09.25_00h27" ++ "/models/" ++ "best_model-" ++
          "RecLMIS" ++ ".pth.tar" ∨
      p = "./" ++ "MosMedPlus" ++ "/" ++ "RecLMIS" ++ "/" ++
          "session_09.25_00h27" ++ "/models/" ++ "best_model-" ++
          "RecLMIS" ++ ".pth.tar")) :=
  ⟨rfl, C7_value_flags_ignored ⟨["./"], []⟩
    ⟨"mysession", "MyModel", true, false, false, false, false⟩
    ⟨"cfid", "Covid19", "mfid", "MosMedPlus"⟩
    ⟨⟨true, true, ⟨false, [], 7⟩⟩, ⟨true, true, ⟨false, [], 8⟩⟩,
     ⟨true, true, ⟨false, ⟨false, [], 0⟩, false⟩,
      ⟨false, ⟨false, [], 0⟩, false⟩,
      ⟨none, false, false, false, ⟨false, [], 0⟩, false⟩⟩,
     ⟨true, ⟨false, [], 0⟩⟩⟩ rfl rfl⟩
